import Mathlib

/-!
Verification of the unalone geospatial search-and-clustering engine.

This file is a shallow embedding, in Lean 4, of the Go code in
`unalone-backend/internal` (services/geospatial.go, services/hotspot.go,
services/redis.go, handlers/hotspot.go, models/hotspot.go), together with
theorems settling the behavioural claims made about that code.

Modelling conventions:
* Go `float64` coordinates and distances are modelled as `ℚ` inside the
  search/clustering pipeline (all pipeline operations on them are
  comparisons and field arithmetic, which are exact), and as `ℝ` for the
  trigonometric haversine formula itself (`calculateDistance`), which has
  no exact executable model.  The pipeline is therefore parametric in the
  distance function `dist`; the Go code instantiates it with the haversine.
  Every pipeline theorem below holds for an arbitrary `dist`, hence in
  particular for the haversine.
* Go `int` fields are modelled as `ℤ` where the code can store arbitrary
  values (capacities, occupancy, cluster sizes, zoom levels) and as `ℕ`
  for pagination offsets/limits and lengths (a negative offset/limit would
  make the Go slice expression panic, which is outside every claim).
* Go `*T` optional fields are modelled as `Option`; `time.Time` values are
  modelled as integer timestamps (only their ordering is ever used).
* Go maps iterated in unspecified order are modelled as lists; all claims
  proved below are order-insensitive.
-/

namespace Unalone

/-- models.HotspotLocation: geographic coordinates (float64 in Go, ℚ here). -/
structure HotspotLocation where
  latitude : ℚ
  longitude : ℚ
deriving DecidableEq

/-- models.TimeFilter (the DaysOfWeek/TimeOfDay fields are never read by the
verified code paths and are omitted). -/
structure TimeFilter where
  startTime : Option ℤ
  endTime : Option ℤ
deriving DecidableEq

/-- models.Hotspot.  The Address field is never read by any verified code path
and is omitted; categories are the string enum `models.HotspotCategory`. -/
structure Hotspot where
  id : String
  name : String
  description : String
  category : String
  location : HotspotLocation
  createdBy : String
  createdByNickname : String
  maxCapacity : ℤ
  currentOccupancy : ℤ
  isActive : Bool
  isPublic : Bool
  tags : List String
  scheduledTime : Option ℤ
  endTime : Option ℤ
  imageURL : String
  attendees : List String
  createdAt : ℤ
  updatedAt : ℤ
deriving DecidableEq

/-- models.HotspotWithDistance. -/
structure HotspotWithDistance where
  hotspot : Hotspot
  distance : ℚ
deriving DecidableEq

/-- models.BoundingBox. -/
structure BoundingBox where
  northEast : HotspotLocation
  southWest : HotspotLocation
deriving DecidableEq

/-- models.HotspotCluster. -/
structure HotspotCluster where
  id : String
  centerLocation : HotspotLocation
  boundingBox : BoundingBox
  hotspotCount : ℤ
  totalOccupancy : ℤ
  maxCapacity : ℤ
  categories : List String
  zoomLevel : ℤ
  radius : ℚ
  hotspots : List String
deriving DecidableEq

/-- models.ClusteringMode is a Go string type; the service dispatches on the
string value, with a default branch for anything unrecognized. -/
abbrev ClusteringMode := String

def clusteringModeNone : ClusteringMode := "none"

def clusteringModeGrid : ClusteringMode := "grid"

def clusteringModeDistance : ClusteringMode := "distance"

def clusteringModeKMeans : ClusteringMode := "kmeans"

def clusteringModeAuto : ClusteringMode := "auto"

/-- models.ClusterConfig (the ZoomLevel/IncludeHotspots fields are never read
by the service, which uses the request zoom level instead; omitted). -/
structure ClusterConfig where
  mode : ClusteringMode
  minClusterSize : ℤ
  maxClusterSize : ℤ
  gridSize : ℚ
deriving DecidableEq

/-- models.SearchFilters (CreatedBy is never read by applyFilters; omitted). -/
structure SearchFilters where
  categories : List String
  isActive : Option Bool
  hasAvailableSpots : Option Bool
  tags : List String
  minCapacity : Option ℤ
  maxCapacity : Option ℤ
  timeFilter : Option TimeFilter
  isPublic : Option Bool
deriving DecidableEq

/-- models.GeospatialQuery (only the fields read by the verified code). -/
structure GeospatialQuery where
  center : HotspotLocation
  radius : ℚ
  zoomLevel : ℤ
deriving DecidableEq

/-- models.Pagination (Limit/Offset; the token/sort fields are never read). -/
structure Pagination where
  limit : ℕ
  offset : ℕ
deriving DecidableEq

/-- models.OptimizedHotspotSearchRequest. -/
structure OptimizedHotspotSearchRequest where
  geospatialQuery : GeospatialQuery
  filters : SearchFilters
  pagination : Pagination
  clustering : ClusterConfig
deriving DecidableEq

/-- models.HotspotSearchRequest (legacy search parameters). -/
structure HotspotSearchRequest where
  latitude : ℚ
  longitude : ℚ
  radius : ℚ
  category : Option String
  isActive : Option Bool
  hasAvailableSpots : Option Bool
  tags : List String
  startTime : Option ℤ
  endTime : Option ℤ
  limit : ℕ
  offset : ℕ
deriving DecidableEq

/-- models.HotspotSearchResponse. -/
structure HotspotSearchResponse where
  hotspots : List HotspotWithDistance
  total : ℕ
  hasMore : Bool
deriving DecidableEq

/-- models.HotspotSearchResultOptimized.  The QueryTime field is wall-clock
time and is not modelled; NextPageToken is never set by the service. -/
structure HotspotSearchResultOptimized where
  clusters : List HotspotCluster
  hotspots : List HotspotWithDistance
  totalCount : ℕ
  clusterCount : ℕ
  hasMore : Bool
  cacheHit : Bool
  zoomLevel : ℤ
deriving DecidableEq

end Unalone

namespace Unalone

/-! The search pipeline (services/geospatial.go), parametric in the distance
function `dist` (the Go code uses the float64 haversine
`GeospatialService.calculateDistance`; see the `ℝ` model `calculateDistance`
further below). -/

/-- convertToHotspotsWithDistance (geospatial.go 630-645): attach the distance
from the query center to every hotspot. -/
def convertToHotspotsWithDistance (dist : HotspotLocation → HotspotLocation → ℚ)
    (hotspots : List Hotspot) (center : HotspotLocation) : List HotspotWithDistance :=
  hotspots.map (fun h => { hotspot := h, distance := dist center h.location })

/-- filterByDistance (geospatial.go 647-656): keep hotspots whose recorded
distance is at most `maxDistance`. -/
def filterByDistance (hotspots : List HotspotWithDistance) (maxDistance : ℚ) :
    List HotspotWithDistance :=
  hotspots.filter (fun h => decide (h.distance ≤ maxDistance))

/-- sort.Slice by ascending Distance (geospatial.go 180-182, hotspot.go
412-415).  Go's sort.Slice is an unstable comparison sort; any sorted
permutation is a faithful model, and we use insertion sort. -/
def sortByDistance (hotspots : List HotspotWithDistance) : List HotspotWithDistance :=
  hotspots.insertionSort (fun a b => a.distance ≤ b.distance)

/-- matchesFilters: the per-hotspot predicate applied by applyFilters
(geospatial.go 659-725); each conjunct corresponds to one `continue` guard. -/
def matchesFilters (filters : SearchFilters) (h : Hotspot) : Bool :=
  (filters.categories.isEmpty || filters.categories.contains h.category)
  && (match filters.isActive with
      | Option.none => true
      | Option.some b => h.isActive == b)
  && (match filters.hasAvailableSpots with
      | Option.none => true
      | Option.some b =>
        !(b && decide (h.maxCapacity > 0) && decide (h.currentOccupancy ≥ h.maxCapacity)))
  && (match filters.minCapacity with
      | Option.none => true
      | Option.some m => decide (¬ h.maxCapacity < m))
  && (match filters.maxCapacity with
      | Option.none => true
      | Option.some m => decide (¬ h.maxCapacity > m))
  && (match filters.isPublic with
      | Option.none => true
      | Option.some b => h.isPublic == b)
  && (filters.tags.isEmpty || filters.tags.any (fun t => h.tags.contains t))

/-- applyFilters (geospatial.go 659-725). -/
def applyFilters (hotspots : List Hotspot) (filters : SearchFilters) : List Hotspot :=
  hotspots.filter (matchesFilters filters)

/-- legacyMatches: the per-hotspot predicate of the brute-force scan
(hotspot.go 347-404); each conjunct corresponds to one `continue` guard,
starting with the radius check. -/
def legacyMatches (dist : HotspotLocation → HotspotLocation → ℚ)
    (req : HotspotSearchRequest) (h : Hotspot) : Bool :=
  decide (¬ dist ⟨req.latitude, req.longitude⟩ h.location > req.radius)
  && (match req.category with
      | Option.none => true
      | Option.some c => h.category == c)
  && (match req.isActive with
      | Option.none => true
      | Option.some b => h.isActive == b)
  && (match req.hasAvailableSpots with
      | Option.none => true
      | Option.some b =>
        !(b && decide (h.maxCapacity > 0) && decide (h.currentOccupancy ≥ h.maxCapacity)))
  && (req.tags.isEmpty || req.tags.any (fun t => h.tags.contains t))
  && (match req.startTime, h.scheduledTime with
      | Option.some st, Option.some sched => decide (¬ sched < st)
      | _, _ => true)
  && (match req.endTime, h.endTime with
      | Option.some et, Option.some he => decide (¬ he > et)
      | _, _ => true)

/-- paginate: the slice clamping of hotspot.go 417-429 and geospatial.go
184-194 (`start := offset; end := offset+limit;` both clamped to the list
length, then `l[start:end]`). -/
def paginate (offset limit : ℕ) (l : List HotspotWithDistance) : List HotspotWithDistance :=
  (l.take (min (offset + limit) l.length)).drop (min offset l.length)

/-- legacyMatchList: the filtered, distance-annotated, distance-sorted match
list the brute-force scan builds before pagination (hotspot.go 344-415). -/
def legacyMatchList (dist : HotspotLocation → HotspotLocation → ℚ)
    (store : List Hotspot) (req : HotspotSearchRequest) : List HotspotWithDistance :=
  sortByDistance
    ((store.filter (legacyMatches dist req)).map
      (fun h => { hotspot := h, distance := dist ⟨req.latitude, req.longitude⟩ h.location }))

/-- HotspotService.searchHotspotsMock (hotspot.go 344-437): brute-force scan
over the whole store, then sort, then paginate; `hasMore = end < total`.
The store is the `mockHotspots` map, modelled as a list. -/
def searchHotspotsMock (dist : HotspotLocation → HotspotLocation → ℚ)
    (store : List Hotspot) (req : HotspotSearchRequest) : HotspotSearchResponse :=
  let results := legacyMatchList dist store req
  let total := results.length
  { hotspots := paginate req.offset req.limit results
    total := total
    hasMore := decide (min (req.offset + req.limit) total < total) }

/-- Modelled from the spec: the Record Store Adapter operation
`getMany(ids) → records (missing IDs silently omitted)` (spec §4.5).  In the
source, `GeospatialService.getHotspotsByIDs` (geospatial.go 730-735) is a
stub that returns no records because the Firestore-backed store is not
implemented; its documented intent is a lookup of the candidate IDs in the
record store. -/
def getHotspotsByIDs (store : List Hotspot) (ids : List String) : List Hotspot :=
  ids.filterMap (fun i => store.find? (fun h => h.id == i))

/-- getFirstCategory (geospatial.go 746-751). -/
def getFirstCategory (categories : List String) : Option String :=
  categories.head?

/-- getTimeFilterStart (geospatial.go 754-759). -/
def getTimeFilterStart (tf : Option TimeFilter) : Option ℤ :=
  tf.bind (fun t => t.startTime)

/-- getTimeFilterEnd (geospatial.go 761-766). -/
def getTimeFilterEnd (tf : Option TimeFilter) : Option ℤ :=
  tf.bind (fun t => t.endTime)

/-- legacyRequestOf: the legacy-style search request constructed by
traditionalGeospatialSearch (geospatial.go 201-213). -/
def legacyRequestOf (req : OptimizedHotspotSearchRequest) : HotspotSearchRequest :=
  { latitude := req.geospatialQuery.center.latitude
    longitude := req.geospatialQuery.center.longitude
    radius := req.geospatialQuery.radius
    limit := req.pagination.limit
    offset := req.pagination.offset
    category := getFirstCategory req.filters.categories
    isActive := req.filters.isActive
    hasAvailableSpots := req.filters.hasAvailableSpots
    tags := req.filters.tags
    startTime := getTimeFilterStart req.filters.timeFilter
    endTime := getTimeFilterEnd req.filters.timeFilter }

/-- traditionalGeospatialSearch (geospatial.go 198-217): build a legacy-style
request and delegate to the brute-force scan.  Modelled from the spec: the
delegation target `GeospatialService.searchHotspotsMock` (geospatial.go
738-743) is a stub ("return empty results since we don't have access to the
mock storage"); spec §4.4 step 3 specifies delegation to the brute-force scan
over the record store, which is `HotspotService.searchHotspotsMock` above. -/
def traditionalGeospatialSearch (dist : HotspotLocation → HotspotLocation → ℚ)
    (store : List Hotspot) (req : OptimizedHotspotSearchRequest) :
    List HotspotWithDistance :=
  (searchHotspotsMock dist store (legacyRequestOf req)).hotspots

/-- indexedMatches: the filtered, distance-annotated, radius-filtered,
distance-sorted match list of the indexed path of queryHotspotsOptimized
(geospatial.go 164-182), before pagination. -/
def indexedMatches (dist : HotspotLocation → HotspotLocation → ℚ)
    (store : List Hotspot) (candidateIDs : List String)
    (req : OptimizedHotspotSearchRequest) : List HotspotWithDistance :=
  let hotspots := getHotspotsByIDs store candidateIDs
  let filteredHotspots := applyFilters hotspots req.filters
  let hotspotsWithDistance :=
    convertToHotspotsWithDistance dist filteredHotspots req.geospatialQuery.center
  let finalHotspots := filterByDistance hotspotsWithDistance req.geospatialQuery.radius
  sortByDistance finalHotspots

/-- queryHotspotsOptimized (geospatial.go 143-195).  `candidateIDs` is the
reply of the Redis geospatial index (GetNearbyHotspotIDs); when Redis is
unavailable, or errored, or returned no candidates, the code falls back to
the traditional search, otherwise it resolves the candidates, filters, sorts
and paginates. -/
def queryHotspotsOptimized (dist : HotspotLocation → HotspotLocation → ℚ)
    (store : List Hotspot) (available : Bool) (candidateIDs : List String)
    (req : OptimizedHotspotSearchRequest) : List HotspotWithDistance :=
  let cands := if available then candidateIDs else []
  if cands.isEmpty then
    traditionalGeospatialSearch dist store req
  else
    paginate req.pagination.offset req.pagination.limit
      (indexedMatches dist store cands req)

/-! The clustering engine (geospatial.go 219-608). -/

/-- calculateOptimalGridSize (geospatial.go 420-436). -/
def calculateOptimalGridSize (zoomLevel : ℤ) (configuredSize : ℚ) : ℚ :=
  if configuredSize > 0 then configuredSize
  else if zoomLevel ≤ 5 then 50
  else if zoomLevel ≤ 10 then 10
  else if zoomLevel ≤ 15 then 2
  else 1/2

/-- calculateOptimalClusterDistance (geospatial.go 439-450). -/
def calculateOptimalClusterDistance (zoomLevel : ℤ) : ℚ :=
  if zoomLevel ≤ 5 then 25
  else if zoomLevel ≤ 10 then 5
  else if zoomLevel ≤ 15 then 1
  else 1/5

/-- calculateOptimalK (geospatial.go 453-472).  `int(math.Sqrt(float64(n)/2))`
equals `Nat.sqrt (n / 2)` with natural division: for even n this is exact,
and for odd n no integer square lies strictly between n/2 and n/2 + 1/2.
The zoom adjustment and both clamps use Go integer arithmetic on
non-negative values, i.e. natural arithmetic. -/
def calculateOptimalK (numHotspots : ℕ) (zoomLevel : ℤ) : ℕ :=
  let k0 := Nat.sqrt (numHotspots / 2)
  let k1 := if zoomLevel > 15 then k0 * 2 else if zoomLevel < 10 then k0 / 2 else k0
  let k2 := if k1 < 2 then 2 else k1
  if k2 > numHotspots / 3 then numHotspots / 3 else k2

/-- getGridKey (geospatial.go 475-481): the grid cell of a location.  The Go
code renders `(floor(lat/g)*g, floor(lon/g)*g)` as a "%.4f,%.4f" string; we
keep the pair of floor indices, which distinguishes cells exactly when the
un-rounded values differ.  (The 4-decimal formatting can additionally merge
distinct cells for grid sizes below 10⁻⁴ degrees; the clustering theorems
below are insensitive to the choice of key function.) -/
def getGridKey (location : HotspotLocation) (gridSize : ℚ) : ℤ × ℤ :=
  (⌊location.latitude / gridSize⌋, ⌊location.longitude / gridSize⌋)

/-- emptyCluster: the zero value `models.HotspotCluster{}` returned by
createClusterFromHotspots for an empty group (geospatial.go 526-528). -/
def emptyCluster : HotspotCluster :=
  { id := ""
    centerLocation := ⟨0, 0⟩
    boundingBox := ⟨⟨0, 0⟩, ⟨0, 0⟩⟩
    hotspotCount := 0
    totalOccupancy := 0
    maxCapacity := 0
    categories := []
    zoomLevel := 0
    radius := 0
    hotspots := [] }

/-- createClusterFromHotspots (geospatial.go 525-608): centroid = coordinate
means, bounding box = axis-aligned min/max, radius = max member distance from
the centroid, occupancy/capacity sums, first-occurrence list of distinct
categories, member ID list. -/
def createClusterFromHotspots (dist : HotspotLocation → HotspotLocation → ℚ)
    (hotspots : List HotspotWithDistance) (clusterID : String) (zoomLevel : ℤ) :
    HotspotCluster :=
  match hotspots with
  | [] => emptyCluster
  | h0 :: _ =>
    let n : ℚ := hotspots.length
    let centerLat := (hotspots.map (fun h => h.hotspot.location.latitude)).sum / n
    let centerLon := (hotspots.map (fun h => h.hotspot.location.longitude)).sum / n
    let lats := hotspots.map (fun h => h.hotspot.location.latitude)
    let lons := hotspots.map (fun h => h.hotspot.location.longitude)
    { id := clusterID
      centerLocation := ⟨centerLat, centerLon⟩
      boundingBox :=
        ⟨⟨lats.foldl max h0.hotspot.location.latitude, lons.foldl max h0.hotspot.location.longitude⟩,
         ⟨lats.foldl min h0.hotspot.location.latitude, lons.foldl min h0.hotspot.location.longitude⟩⟩
      hotspotCount := hotspots.length
      totalOccupancy := (hotspots.map (fun h => h.hotspot.currentOccupancy)).sum
      maxCapacity := (hotspots.map (fun h => h.hotspot.maxCapacity)).sum
      categories := (hotspots.map (fun h => h.hotspot.category)).dedup
      zoomLevel := zoomLevel
      radius := (hotspots.map (fun h => dist ⟨centerLat, centerLon⟩ h.hotspot.location)).foldl max 0
      hotspots := hotspots.map (fun h => h.hotspot.id) }

/-- gridCells: the occupied grid cells of gridBasedClustering (geospatial.go
240-246).  The Go code appends each hotspot to `gridMap[key]`; equivalently,
the cell of a key holds the input-order sublist of hotspots with that key,
one cell per distinct key. -/
def gridCells (hotspots : List HotspotWithDistance) (gridSize : ℚ) :
    List (List HotspotWithDistance) :=
  ((hotspots.map (fun h => getGridKey h.hotspot.location gridSize)).dedup).map
    (fun k => hotspots.filter (fun h => decide (getGridKey h.hotspot.location gridSize = k)))

/-- gridBasedClustering (geospatial.go 238-260): one cluster per occupied
cell holding at least MinClusterSize hotspots, with IDs "grid_0", "grid_1",
… in emission order. -/
def gridBasedClustering (dist : HotspotLocation → HotspotLocation → ℚ)
    (hotspots : List HotspotWithDistance) (config : ClusterConfig) (zoomLevel : ℤ) :
    List HotspotCluster :=
  let gridSize := calculateOptimalGridSize zoomLevel config.gridSize
  let cells := (gridCells hotspots gridSize).filter
    (fun cell => decide (config.minClusterSize ≤ (cell.length : ℤ)))
  cells.enum.map
    (fun p => createClusterFromHotspots dist p.2 ("grid_" ++ toString p.1) zoomLevel)

/-- absorbLoop: the inner loop of distanceBasedClustering (geospatial.go
278-295), scanning all (index, hotspot) pairs and absorbing every unused
point within `maxDistance` of the seed while the cluster is below
MaxClusterSize.  `used` is the set of already-clustered indices (the Go
`used []bool` array, as a list of indices). -/
def absorbLoop (dist : HotspotLocation → HotspotLocation → ℚ)
    (maxDistance : ℚ) (maxClusterSize : ℤ) (i : ℕ) (hi : HotspotWithDistance) :
    List (ℕ × HotspotWithDistance) → List ℕ → List (ℕ × HotspotWithDistance) →
    List (ℕ × HotspotWithDistance) × List ℕ
  | [], used, cluster => (cluster, used)
  | (j, hj) :: rest, used, cluster =>
    if j ∈ used ∨ i = j then
      absorbLoop dist maxDistance maxClusterSize i hi rest used cluster
    else if dist hi.hotspot.location hj.hotspot.location ≤ maxDistance ∧
        (cluster.length : ℤ) < maxClusterSize then
      absorbLoop dist maxDistance maxClusterSize i hi rest (j :: used) (cluster ++ [(j, hj)])
    else
      absorbLoop dist maxDistance maxClusterSize i hi rest used cluster

/-- outerLoop: the outer loop of distanceBasedClustering (geospatial.go
269-303): for each not-yet-used point, seed a cluster, absorb nearby unused
points, and emit the group when it reaches MinClusterSize. -/
def outerLoop (dist : HotspotLocation → HotspotLocation → ℚ)
    (maxDistance : ℚ) (maxClusterSize minClusterSize : ℤ)
    (all : List (ℕ × HotspotWithDistance)) :
    List (ℕ × HotspotWithDistance) → List ℕ → List (List (ℕ × HotspotWithDistance))
  | [], _ => []
  | (i, hi) :: rest, used =>
    if i ∈ used then
      outerLoop dist maxDistance maxClusterSize minClusterSize all rest used
    else
      let r := absorbLoop dist maxDistance maxClusterSize i hi all (i :: used) [(i, hi)]
      if minClusterSize ≤ (r.1.length : ℤ) then
        r.1 :: outerLoop dist maxDistance maxClusterSize minClusterSize all rest r.2
      else
        outerLoop dist maxDistance maxClusterSize minClusterSize all rest r.2

/-- distanceGroups: the emitted member groups of distanceBasedClustering, as
(index, hotspot) pairs. -/
def distanceGroups (dist : HotspotLocation → HotspotLocation → ℚ)
    (maxDistance : ℚ) (maxClusterSize minClusterSize : ℤ)
    (hotspots : List HotspotWithDistance) : List (List (ℕ × HotspotWithDistance)) :=
  outerLoop dist maxDistance maxClusterSize minClusterSize hotspots.enum hotspots.enum []

/-- distanceBasedClustering (geospatial.go 263-306), with IDs "dist_0",
"dist_1", … in emission order. -/
def distanceBasedClustering (dist : HotspotLocation → HotspotLocation → ℚ)
    (hotspots : List HotspotWithDistance) (config : ClusterConfig) (zoomLevel : ℤ) :
    List HotspotCluster :=
  let maxDistance := calculateOptimalClusterDistance zoomLevel
  (distanceGroups dist maxDistance config.maxClusterSize config.minClusterSize hotspots).enum.map
    (fun p =>
      createClusterFromHotspots dist (p.2.map Prod.snd) ("dist_" ++ toString p.1) zoomLevel)

/-- nearestCentroidIdx: the argmin loops of kMeansClustering (geospatial.go
322-337 and 373-389): minDist starts at math.MaxFloat64 (modelled as "no
candidate yet"), a strict `<` keeps the earliest minimizing index, and the
assignment defaults to centroid 0. -/
def nearestCentroidIdx (dist : HotspotLocation → HotspotLocation → ℚ)
    (loc : HotspotLocation) (centroids : List HotspotLocation) : ℕ :=
  (centroids.enum.foldl
    (fun best jc =>
      match best.2 with
      | Option.none => (jc.1, Option.some (dist loc jc.2))
      | Option.some m =>
        if dist loc jc.2 < m then (jc.1, Option.some (dist loc jc.2)) else best)
    ((0 : ℕ), (Option.none : Option ℚ))).1

/-- lloydStep: one iteration of the k-means loop (geospatial.go 320-368):
assign every hotspot to its nearest centroid, move every non-empty centroid
to the mean of its members, and report convergence when no moved centroid
changed by more than 0.0001 in either coordinate. -/
def lloydStep (dist : HotspotLocation → HotspotLocation → ℚ)
    (hotspots : List HotspotWithDistance) (centroids : List HotspotLocation) :
    List HotspotLocation × Bool :=
  let updated := centroids.enum.map (fun jc =>
    let members := hotspots.filter
      (fun h => decide (nearestCentroidIdx dist h.hotspot.location centroids = jc.1))
    if members.length = 0 then (jc.2, true)
    else
      let newLat := (members.map (fun h => h.hotspot.location.latitude)).sum / members.length
      let newLon := (members.map (fun h => h.hotspot.location.longitude)).sum / members.length
      (⟨newLat, newLon⟩,
        decide (|newLat - jc.2.latitude| ≤ 1/10000 ∧ |newLon - jc.2.longitude| ≤ 1/10000)))
  (updated.map Prod.fst, updated.all Prod.snd)

/-- lloydIterate: the iteration loop with its hard cap (`maxIterations := 10`,
geospatial.go 318-369), stopping early on convergence. -/
def lloydIterate (dist : HotspotLocation → HotspotLocation → ℚ)
    (hotspots : List HotspotWithDistance) :
    ℕ → List HotspotLocation → List HotspotLocation
  | 0, centroids => centroids
  | Nat.succ fuel, centroids =>
    let r := lloydStep dist hotspots centroids
    if r.2 then r.1 else lloydIterate dist hotspots fuel r.1

/-- minDistToCentroids: minimum distance from a location to the existing
centroids (geospatial.go 496-509; the Go code starts from MaxFloat64 and is
only ever invoked with a non-empty centroid list). -/
def minDistToCentroids (dist : HotspotLocation → HotspotLocation → ℚ)
    (loc : HotspotLocation) : List HotspotLocation → ℚ
  | [] => 0
  | c :: cs => (cs.map (fun x => dist loc x)).foldl min (dist loc c)

/-- kppNext: the farthest-point selection of initializeCentroids
(geospatial.go 491-519): maxDist starts at 0 and `farthest` at the zero-value
location (0,0), so if no point is strictly farther than 0 from the existing
centroids the zero value is selected, exactly as in the Go code. -/
def kppNext (dist : HotspotLocation → HotspotLocation → ℚ)
    (hotspots : List HotspotWithDistance) (existing : List HotspotLocation) :
    HotspotLocation :=
  (hotspots.foldl
    (fun best h =>
      let m := minDistToCentroids dist h.hotspot.location existing
      if m > best.1 then (m, h.hotspot.location) else best)
    ((0 : ℚ), (⟨0, 0⟩ : HotspotLocation))).2

/-- kppBuild: append farthest points until the requested number of centroids
is reached. -/
def kppBuild (dist : HotspotLocation → HotspotLocation → ℚ)
    (hotspots : List HotspotWithDistance) :
    ℕ → List HotspotLocation → List HotspotLocation
  | 0, acc => acc
  | Nat.succ n, acc => kppBuild dist hotspots n (acc ++ [kppNext dist hotspots acc])

/-- initializeCentroids (geospatial.go 484-522): centroids[0] = hotspots[0]
(callers guarantee a non-empty list; the head default is never used), the
rest by farthest-point selection. -/
def initializeCentroids (dist : HotspotLocation → HotspotLocation → ℚ)
    (hotspots : List HotspotWithDistance) (k : ℕ) : List HotspotLocation :=
  kppBuild dist hotspots (k - 1)
    [((hotspots.head?).map (fun h => h.hotspot.location)).getD ⟨0, 0⟩]

/-- kMeansCentroids: the final centroids used by kMeansClustering (k-means++
seeding followed by at most 10 Lloyd iterations). -/
def kMeansCentroids (dist : HotspotLocation → HotspotLocation → ℚ)
    (hotspots : List HotspotWithDistance) (zoomLevel : ℤ) : List HotspotLocation :=
  lloydIterate dist hotspots 10
    (initializeCentroids dist hotspots (calculateOptimalK hotspots.length zoomLevel))

/-- kMeansGroups: the final grouping of hotspots by nearest centroid
(geospatial.go 371-389). -/
def kMeansGroups (dist : HotspotLocation → HotspotLocation → ℚ)
    (hotspots : List HotspotWithDistance) (centroids : List HotspotLocation) :
    List (List HotspotWithDistance) :=
  centroids.enum.map (fun jc =>
    hotspots.filter (fun h => decide (nearestCentroidIdx dist h.hotspot.location centroids = jc.1)))

/-- kMeansClustering (geospatial.go 309-400): compute k, bail out when k ≤ 1
or there are fewer hotspots than MinClusterSize, otherwise seed, iterate,
group, and emit the groups of at least MinClusterSize members, each cluster
ID carrying its group index. -/
def kMeansClustering (dist : HotspotLocation → HotspotLocation → ℚ)
    (hotspots : List HotspotWithDistance) (config : ClusterConfig) (zoomLevel : ℤ) :
    List HotspotCluster :=
  let k := calculateOptimalK hotspots.length zoomLevel
  if k ≤ 1 ∨ (hotspots.length : ℤ) < config.minClusterSize then []
  else
    let groups := kMeansGroups dist hotspots (kMeansCentroids dist hotspots zoomLevel)
    (groups.enum.filter (fun p => decide (config.minClusterSize ≤ (p.2.length : ℤ)))).map
      (fun p => createClusterFromHotspots dist p.2 ("kmeans_" ++ toString p.1) zoomLevel)

/-- autoClustering (geospatial.go 403-415): distance mode under 20 points,
grid mode under 100, k-means otherwise. -/
def autoClustering (dist : HotspotLocation → HotspotLocation → ℚ)
    (hotspots : List HotspotWithDistance) (config : ClusterConfig) (zoomLevel : ℤ) :
    List HotspotCluster :=
  if hotspots.length < 20 then
    distanceBasedClustering dist hotspots { config with mode := clusteringModeDistance } zoomLevel
  else if hotspots.length < 100 then
    gridBasedClustering dist hotspots { config with mode := clusteringModeGrid } zoomLevel
  else
    kMeansClustering dist hotspots { config with mode := clusteringModeKMeans } zoomLevel

/-- clusterHotspots (geospatial.go 222-235): dispatch on the mode string,
empty output on anything unrecognized. -/
def clusterHotspots (dist : HotspotLocation → HotspotLocation → ℚ)
    (hotspots : List HotspotWithDistance) (config : ClusterConfig) (zoomLevel : ℤ) :
    List HotspotCluster :=
  if config.mode = clusteringModeGrid then gridBasedClustering dist hotspots config zoomLevel
  else if config.mode = clusteringModeDistance then
    distanceBasedClustering dist hotspots config zoomLevel
  else if config.mode = clusteringModeKMeans then kMeansClustering dist hotspots config zoomLevel
  else if config.mode = clusteringModeAuto then autoClustering dist hotspots config zoomLevel
  else []

/-! The search orchestrator (geospatial.go 33-138) and the cache tier
(redis.go).  The Redis backend itself is external; a `CacheView` records what
the backend would answer for the one request under consideration: whether the
service holds a live connection (`IsAvailable`), the reply of the cluster
cache and of the region cache at the request key (`none` covers both a miss
and a backend error, which the code treats identically), and the candidate
IDs returned by the geospatial index (empty on error or no matches, which
the code also treats identically). -/

/-- CacheView: the cache tier as seen by one search request. -/
structure CacheView where
  available : Bool
  cachedClusters : Option (List HotspotCluster)
  cachedHotspots : Option (List Hotspot)
  nearbyIDs : List String
deriving DecidableEq

/-- SearchHotspotsOptimized (geospatial.go 33-138): cluster-cache check when
clustering is requested, region-cache check otherwise, then the optimized
query, optional clustering, and result assembly with
`HasMore = len(hotspots) >= limit` over the returned page. -/
def searchHotspotsOptimized (dist : HotspotLocation → HotspotLocation → ℚ)
    (store : List Hotspot) (cache : CacheView) (req : OptimizedHotspotSearchRequest) :
    HotspotSearchResultOptimized :=
  if cache.available ∧ req.clustering.mode ≠ clusteringModeNone ∧
      cache.cachedClusters.isSome then
    let cachedClusters := cache.cachedClusters.getD []
    { clusters := cachedClusters
      hotspots := []
      totalCount := cachedClusters.length
      clusterCount := cachedClusters.length
      hasMore := false
      cacheHit := true
      zoomLevel := req.geospatialQuery.zoomLevel }
  else if cache.available ∧ req.clustering.mode = clusteringModeNone ∧
      cache.cachedHotspots.isSome then
    let hotspots := convertToHotspotsWithDistance dist (cache.cachedHotspots.getD [])
      req.geospatialQuery.center
    { clusters := []
      hotspots := hotspots
      totalCount := hotspots.length
      clusterCount := 0
      hasMore := false
      cacheHit := true
      zoomLevel := req.geospatialQuery.zoomLevel }
  else
    let hotspots := queryHotspotsOptimized dist store cache.available cache.nearbyIDs req
    let clustered := req.clustering.mode ≠ clusteringModeNone ∧
      req.clustering.minClusterSize < (hotspots.length : ℤ)
    let clusters := if clustered then clusterHotspots dist hotspots req.clustering
      req.geospatialQuery.zoomLevel else []
    let individualHotspots := if clustered then [] else hotspots
    { clusters := clusters
      hotspots := individualHotspots
      totalCount := hotspots.length
      clusterCount := clusters.length
      hasMore := decide (req.pagination.limit ≤ hotspots.length)
      cacheHit := false
      zoomLevel := req.geospatialQuery.zoomLevel }

/-! The cache-tier operations (redis.go).  Every operation first checks
`IsAvailable` (`rs.client != nil`) and returns a no-op / miss without error
when the backend is unavailable; otherwise the outcome is whatever the
backend produces, supplied here as the `backend` argument. -/

/-- CacheStats (the stats map of GetCacheStats; only the availability flag
is modelled, the remaining entries are live backend metrics). -/
structure CacheStats where
  available : Bool
deriving DecidableEq

/-- CacheHotspots (redis.go 86-98). -/
def rsCacheHotspots (available : Bool) (backend : Except String Unit) : Except String Unit :=
  if available then backend else Except.ok ()

/-- GetCachedHotspots (redis.go 101-118); `Option.none` is the cache-miss
sentinel (nil, nil). -/
def rsGetCachedHotspots (available : Bool)
    (backend : Except String (Option (List Hotspot))) :
    Except String (Option (List Hotspot)) :=
  if available then backend else Except.ok Option.none

/-- CacheClusterResults (redis.go 121-133). -/
def rsCacheClusterResults (available : Bool) (backend : Except String Unit) :
    Except String Unit :=
  if available then backend else Except.ok ()

/-- GetCachedClusterResults (redis.go 136-153). -/
def rsGetCachedClusterResults (available : Bool)
    (backend : Except String (Option (List HotspotCluster))) :
    Except String (Option (List HotspotCluster)) :=
  if available then backend else Except.ok Option.none

/-- AddHotspotToGeoIndex (redis.go 158-169). -/
def rsAddHotspotToGeoIndex (available : Bool) (backend : Except String Unit) :
    Except String Unit :=
  if available then backend else Except.ok ()

/-- RemoveHotspotFromGeoIndex (redis.go 172-179). -/
def rsRemoveHotspotFromGeoIndex (available : Bool) (backend : Except String Unit) :
    Except String Unit :=
  if available then backend else Except.ok ()

/-- GetNearbyHotspotIDs (redis.go 182-208); (nil, nil) when unavailable. -/
def rsGetNearbyHotspotIDs (available : Bool)
    (backend : Except String (List String)) : Except String (List String) :=
  if available then backend else Except.ok []

/-- InvalidateRegionCache (redis.go 213-227). -/
def rsInvalidateRegionCache (available : Bool) (backend : Except String Unit) :
    Except String Unit :=
  if available then backend else Except.ok ()

/-- InvalidateHotspotCache (redis.go 230-248): when available, the geo-index
removal error is logged and the per-radius invalidation results are
discarded, so the function returns nil unconditionally. -/
def rsInvalidateHotspotCache (available : Bool) : Except String Unit :=
  if available then Except.ok () else Except.ok ()

/-- GetCacheStats (redis.go 253-271). -/
def rsGetCacheStats (available : Bool) (backend : Except String CacheStats) :
    Except String CacheStats :=
  if available then backend else Except.ok { available := false }

/-! The HTTP handler validation (handlers/hotspot.go, SearchHotspotsOptimized,
lines 333-376): after JSON binding, a center of exactly (0,0) is rejected as
missing before the service is invoked; every other validation substitutes a
default instead of failing. -/

/-- validateOptimizedSearchRequest: the validation and defaulting block of
the handler (handlers/hotspot.go 342-374). -/
def validateOptimizedSearchRequest (req : OptimizedHotspotSearchRequest) :
    Except String OptimizedHotspotSearchRequest :=
  if req.geospatialQuery.center.latitude = 0 ∧ req.geospatialQuery.center.longitude = 0 then
    Except.error "Center coordinates are required"
  else
    let radius := if req.geospatialQuery.radius ≤ 0 then 10 else req.geospatialQuery.radius
    let limit0 := if req.pagination.limit ≤ 0 then 50 else req.pagination.limit
    let limit := if limit0 > 1000 then 1000 else limit0
    let zoomLevel := if req.geospatialQuery.zoomLevel ≤ 0 then 10
      else req.geospatialQuery.zoomLevel
    let mode := if req.clustering.mode = "" then clusteringModeAuto else req.clustering.mode
    let minClusterSize := if req.clustering.minClusterSize ≤ 0 then 2
      else req.clustering.minClusterSize
    let maxClusterSize := if req.clustering.maxClusterSize ≤ 0 then 100
      else req.clustering.maxClusterSize
    Except.ok
      { geospatialQuery := { req.geospatialQuery with radius := radius, zoomLevel := zoomLevel }
        filters := req.filters
        pagination := { req.pagination with limit := limit }
        clustering := { req.clustering with
          mode := mode, minClusterSize := minClusterSize, maxClusterSize := maxClusterSize } }

/-! The hotspot service mutations (services/hotspot.go): Create, Join, Leave
over the `mockHotspots` store (a map keyed by hotspot ID, modelled as a
list).  Users come from the user service, modelled as a list. -/

/-- The user record, as read by the hotspot service (ID and nickname). -/
structure User where
  id : String
  nickname : String
deriving DecidableEq

/-- models.CreateHotspotRequest. -/
structure CreateHotspotRequest where
  name : String
  description : String
  category : String
  location : HotspotLocation
  maxCapacity : ℤ
  isPublic : Bool
  tags : List String
  scheduledTime : Option ℤ
  endTime : Option ℤ
  imageURL : String
deriving DecidableEq

/-- GetUserByID, as consumed by the hotspot service. -/
def findUser (users : List User) (userID : String) : Option User :=
  users.find? (fun u => u.id == userID)

/-- mockHotspots lookup (getHotspotMock, hotspot.go 316-322). -/
def getHotspotMock (store : List Hotspot) (hotspotID : String) : Option Hotspot :=
  store.find? (fun h => h.id == hotspotID)

/-- updateHotspotMock / createHotspotMock (hotspot.go 311-327):
`mockHotspots[h.ID] = h`, i.e. replace the entry with this ID or add it. -/
def updateHotspotMock (store : List Hotspot) (h : Hotspot) : List Hotspot :=
  if store.any (fun x => x.id == h.id) then
    store.map (fun x => if x.id == h.id then h else x)
  else
    store ++ [h]

/-- CreateHotspot (hotspot.go 30-76): look up the creator, validate the
scheduling window, and build the hotspot with the creator auto-joined
(CurrentOccupancy 1, Attendees = [userID]).  The generated UUID and the
clock are supplied as arguments. -/
def createHotspot (users : List User) (userID : String) (req : CreateHotspotRequest)
    (hotspotID : String) (now : ℤ) : Except String Hotspot :=
  match findUser users userID with
  | Option.none => Except.error "user not found"
  | Option.some user =>
    if ∃ st ∈ req.scheduledTime, ∃ et ∈ req.endTime, et < st then
      Except.error "end time cannot be before scheduled time"
    else
      Except.ok
        { id := hotspotID
          name := req.name
          description := req.description
          category := req.category
          location := req.location
          createdBy := userID
          createdByNickname := user.nickname
          maxCapacity := req.maxCapacity
          currentOccupancy := 1
          isActive := true
          isPublic := req.isPublic
          tags := req.tags
          scheduledTime := req.scheduledTime
          endTime := req.endTime
          imageURL := req.imageURL
          attendees := [userID]
          createdAt := now
          updatedAt := now }

/-- JoinHotspot (hotspot.go 181-216): fetch, check active / not already a
member / capacity, then append the user and set CurrentOccupancy to the new
attendee count. -/
def joinHotspot (store : List Hotspot) (userID hotspotID : String) (now : ℤ) :
    Except String (Hotspot × List Hotspot) :=
  match getHotspotMock store hotspotID with
  | Option.none => Except.error "hotspot not found"
  | Option.some hotspot =>
    if hotspot.isActive = false then Except.error "hotspot is not active"
    else if hotspot.attendees.contains userID then
      Except.error "user is already in this hotspot"
    else if hotspot.maxCapacity > 0 ∧ hotspot.currentOccupancy ≥ hotspot.maxCapacity then
      Except.error "hotspot is at maximum capacity"
    else
      let attendees := hotspot.attendees ++ [userID]
      let updated := { hotspot with
        attendees := attendees
        currentOccupancy := (attendees.length : ℤ)
        updatedAt := now }
      Except.ok (updated, updateHotspotMock store updated)

/-- LeaveHotspot (hotspot.go 219-264): remove the first occurrence of the
user, set CurrentOccupancy to the new attendee count, transfer ownership to
the earliest remaining member when the owner leaves (skipped when the user
lookup fails), and deactivate when nobody remains. -/
def leaveHotspot (users : List User) (store : List Hotspot) (userID hotspotID : String)
    (now : ℤ) : Except String (Hotspot × List Hotspot) :=
  match getHotspotMock store hotspotID with
  | Option.none => Except.error "hotspot not found"
  | Option.some hotspot =>
    if hotspot.attendees.contains userID = false then
      Except.error "user is not in this hotspot"
    else
      let attendees := hotspot.attendees.eraseP (fun a => a == userID)
      let h1 := { hotspot with
        attendees := attendees
        currentOccupancy := (attendees.length : ℤ)
        updatedAt := now }
      let h2 :=
        if hotspot.createdBy = userID ∧ attendees ≠ [] then
          match attendees.head? with
          | Option.some first =>
            match findUser users first with
            | Option.some newOwner =>
              { h1 with createdBy := newOwner.id, createdByNickname := newOwner.nickname }
            | Option.none => h1
          | Option.none => h1
        else h1
      let h3 := if attendees.isEmpty then { h2 with isActive := false } else h2
      Except.ok (h3, updateHotspotMock store h3)

/-- One mutation of the hotspot store. -/
inductive HotspotOp where
  | create (userID : String) (req : CreateHotspotRequest) (hotspotID : String) (now : ℤ)
  | join (userID hotspotID : String) (now : ℤ)
  | leave (userID hotspotID : String) (now : ℤ)

/-- applyOp: run one mutation against the store; a failed operation leaves
the store unchanged (the Go services return the error before touching
mockHotspots). -/
def applyOp (users : List User) (store : List Hotspot) : HotspotOp → List Hotspot
  | HotspotOp.create userID req hotspotID now =>
    match createHotspot users userID req hotspotID now with
    | Except.ok h => updateHotspotMock store h
    | Except.error _ => store
  | HotspotOp.join userID hotspotID now =>
    match joinHotspot store userID hotspotID now with
    | Except.ok r => r.2
    | Except.error _ => store
  | HotspotOp.leave userID hotspotID now =>
    match leaveHotspot users store userID hotspotID now with
    | Except.ok r => r.2
    | Except.error _ => store

/-- runOps: run a sequence of mutations from a starting store. -/
def runOps (users : List User) (store : List Hotspot) : List HotspotOp → List Hotspot
  | [] => store
  | op :: rest => runOps users (applyOp users store op) rest

/-- The occupancy invariant: CurrentOccupancy equals the attendee count. -/
def occupancyInvariant (h : Hotspot) : Prop :=
  h.currentOccupancy = (h.attendees.length : ℤ)

/-! The haversine distance (geospatial.go 613-627 and identically hotspot.go
287-301), modelled over ℝ. -/

/-- atan2: Go's math.Atan2 over ℝ (the code only ever applies it to
non-negative arguments, where it agrees with arctan of the quotient for
positive x, π/2 at x = 0 with y positive, and 0 at (0,0)). -/
noncomputable def atan2 (y x : ℝ) : ℝ :=
  if 0 < x then Real.arctan (y / x)
  else if x < 0 then
    (if 0 ≤ y then Real.arctan (y / x) + Real.pi else Real.arctan (y / x) - Real.pi)
  else if 0 < y then Real.pi / 2
  else if y < 0 then -(Real.pi / 2)
  else 0

/-- haversineA: the intermediate value `a` of calculateDistance
(geospatial.go 621-623). -/
noncomputable def haversineA (lat1 lon1 lat2 lon2 : ℝ) : ℝ :=
  Real.sin ((lat2 - lat1) * Real.pi / 180 / 2) * Real.sin ((lat2 - lat1) * Real.pi / 180 / 2) +
    Real.cos (lat1 * Real.pi / 180) * Real.cos (lat2 * Real.pi / 180) *
      (Real.sin ((lon2 - lon1) * Real.pi / 180 / 2) * Real.sin ((lon2 - lon1) * Real.pi / 180 / 2))

/-- calculateDistance (geospatial.go 613-627): haversine great-circle
distance with Earth radius 6371 km. -/
noncomputable def calculateDistance (lat1 lon1 lat2 lon2 : ℝ) : ℝ :=
  6371 * (2 * atan2 (Real.sqrt (haversineA lat1 lon1 lat2 lon2))
    (Real.sqrt (1 - haversineA lat1 lon1 lat2 lon2)))

/-! Concrete sample data used by the witness theorems. -/

/-- zeroDist: a concrete distance function (identically 0) at which the
parametric pipeline theorems are instantiated by the witnesses. -/
def zeroDist : HotspotLocation → HotspotLocation → ℚ := fun _ _ => 0

/-- A sample stored hotspot. -/
def sampleHotspot : Hotspot :=
  { id := "h1"
    name := "sample"
    description := "sample hotspot"
    category := "cafe"
    location := ⟨1, 1⟩
    createdBy := "u1"
    createdByNickname := "nick"
    maxCapacity := 0
    currentOccupancy := 1
    isActive := true
    isPublic := true
    tags := []
    scheduledTime := Option.none
    endTime := Option.none
    imageURL := ""
    attendees := ["u1"]
    createdAt := 0
    updatedAt := 0 }

/-- A second sample hotspot at the same location with a distinct ID. -/
def sampleHotspot2 : Hotspot :=
  { sampleHotspot with id := "h2" }

/-- sampleHotspot paired with its zeroDist distance. -/
def sampleHWD : HotspotWithDistance :=
  { hotspot := sampleHotspot, distance := 0 }

/-- sampleHotspot2 paired with its zeroDist distance. -/
def sampleHWD2 : HotspotWithDistance :=
  { hotspot := sampleHotspot2, distance := 0 }

/-- Empty search filters (every filter off). -/
def emptyFilters : SearchFilters :=
  { categories := []
    isActive := Option.none
    hasAvailableSpots := Option.none
    tags := []
    minCapacity := Option.none
    maxCapacity := Option.none
    timeFilter := Option.none
    isPublic := Option.none }

/-- A sample optimized search request: center (1,1), radius 5 km, zoom 10,
page limit 1, no clustering. -/
def sampleRequest : OptimizedHotspotSearchRequest :=
  { geospatialQuery := { center := ⟨1, 1⟩, radius := 5, zoomLevel := 10 }
    filters := emptyFilters
    pagination := { limit := 1, offset := 0 }
    clustering :=
      { mode := clusteringModeNone
        minClusterSize := 2
        maxClusterSize := 100
        gridSize := 0 } }

/-- sampleRequest with clustering in grid mode. -/
def sampleRequestGrid : OptimizedHotspotSearchRequest :=
  { sampleRequest with
    clustering :=
      { mode := clusteringModeGrid
        minClusterSize := 2
        maxClusterSize := 100
        gridSize := 0 } }

/-- A clustering configuration in distance mode with MinClusterSize 2. -/
def sampleDistanceConfig : ClusterConfig :=
  { mode := clusteringModeDistance
    minClusterSize := 2
    maxClusterSize := 100
    gridSize := 0 }

/-- A sample user. -/
def sampleUser : User :=
  { id := "u1", nickname := "nick" }

/-- A sample create request. -/
def sampleCreateRequest : CreateHotspotRequest :=
  { name := "sample"
    description := "sample hotspot"
    category := "cafe"
    location := ⟨1, 1⟩
    maxCapacity := 0
    isPublic := true
    tags := []
    scheduledTime := Option.none
    endTime := Option.none
    imageURL := "" }

/-! Theorems. -/

lemma haversineA_comm (lat1 lon1 lat2 lon2 : ℝ) :
    haversineA lat1 lon1 lat2 lon2 = haversineA lat2 lon2 lat1 lon1 := by
  unfold haversineA
  have h1 : (lat1 - lat2) * Real.pi / 180 / 2 = -((lat2 - lat1) * Real.pi / 180 / 2) := by ring
  have h2 : (lon1 - lon2) * Real.pi / 180 / 2 = -((lon2 - lon1) * Real.pi / 180 / 2) := by ring
  rw [h1, h2, Real.sin_neg, Real.sin_neg]
  ring

lemma haversineA_self (lat lon : ℝ) : haversineA lat lon lat lon = 0 := by
  unfold haversineA
  have h1 : (lat - lat) * Real.pi / 180 / 2 = 0 := by ring
  have h2 : (lon - lon) * Real.pi / 180 / 2 = 0 := by ring
  rw [h1, h2, Real.sin_zero]
  ring

lemma atan2_zero_one : atan2 0 1 = 0 := by
  unfold atan2
  rw [if_pos one_pos]
  simp [Real.arctan_zero]

/-- C7: distance symmetry and identity.  For every pair of points,
`calculateDistance` (the haversine of geospatial.go 613-627, identical to
hotspot.go 287-301) is symmetric in its two points, and it vanishes on every
pair of identical points. -/
theorem distance_symm_identity :
    (∀ lat1 lon1 lat2 lon2 : ℝ,
      calculateDistance lat1 lon1 lat2 lon2 = calculateDistance lat2 lon2 lat1 lon1) ∧
    (∀ lat lon : ℝ, calculateDistance lat lon lat lon = 0) := by
  constructor
  · intro lat1 lon1 lat2 lon2
    unfold calculateDistance
    rw [haversineA_comm]
  · intro lat lon
    unfold calculateDistance
    rw [haversineA_self]
    norm_num [atan2_zero_one]

/-- C10: the handler treats a center of exactly (0,0) as missing coordinates
and rejects the request before the service is invoked (the error return
precedes the `SearchHotspotsOptimized` call in handlers/hotspot.go), and the
missing-coordinates rejection fires for no other center. -/
theorem center_zero_rejected :
    ∀ req : OptimizedHotspotSearchRequest,
      validateOptimizedSearchRequest req = Except.error "Center coordinates are required" ↔
        (req.geospatialQuery.center.latitude = 0 ∧ req.geospatialQuery.center.longitude = 0) := by
  intro req
  unfold validateOptimizedSearchRequest
  by_cases h : req.geospatialQuery.center.latitude = 0 ∧ req.geospatialQuery.center.longitude = 0
  · simp [h]
  · simp [h]

/-- C6 counterexample: at 3 hotspots and zoom 12 the computed k is 1, which
violates the claimed bound `2 ≤ k` (the code applies the lower clamp before
the upper, so for n < 6 the result is n/3 ≤ 1 < 2). -/
theorem optimalK_bound_counterexample :
    calculateOptimalK 3 12 = 1 ∧ ¬ 2 ≤ calculateOptimalK 3 12 := by
  have h : calculateOptimalK 3 12 = 1 := by
    simp [calculateOptimalK, Nat.sqrt_one]
  exact ⟨h, by rw [h]; omega⟩

lemma lloydStep_length (dist : HotspotLocation → HotspotLocation → ℚ)
    (hotspots : List HotspotWithDistance) (centroids : List HotspotLocation) :
    ((lloydStep dist hotspots centroids).1).length = centroids.length := by
  simp [lloydStep]

lemma lloydIterate_length (dist : HotspotLocation → HotspotLocation → ℚ)
    (hotspots : List HotspotWithDistance) :
    ∀ (fuel : ℕ) (centroids : List HotspotLocation),
      (lloydIterate dist hotspots fuel centroids).length = centroids.length := by
  intro fuel
  induction fuel with
  | zero => intro centroids; rfl
  | succ n ih =>
    intro centroids
    unfold lloydIterate
    by_cases h : (lloydStep dist hotspots centroids).2 = true
    · rw [if_pos h]
      exact lloydStep_length dist hotspots centroids
    · rw [if_neg h, ih]
      exact lloydStep_length dist hotspots centroids

lemma kppBuild_length (dist : HotspotLocation → HotspotLocation → ℚ)
    (hotspots : List HotspotWithDistance) :
    ∀ (n : ℕ) (acc : List HotspotLocation),
      (kppBuild dist hotspots n acc).length = acc.length + n := by
  intro n
  induction n with
  | zero => intro acc; rfl
  | succ m ih =>
    intro acc
    unfold kppBuild
    rw [ih]
    simp
    omega

lemma initializeCentroids_length (dist : HotspotLocation → HotspotLocation → ℚ)
    (hotspots : List HotspotWithDistance) (k : ℕ) :
    (initializeCentroids dist hotspots k).length = 1 + (k - 1) := by
  unfold initializeCentroids
  rw [kppBuild_length]
  rfl

/-- C6 amended: `calculateOptimalK` clamps below (to 2) before clamping above
(to n/3, integer division), so the computed k lies in [2, n/3] exactly when
n ≥ 6; for n < 6 it equals n/3 ≤ 1, and k-means then bails out without using
any centroid.  When k-means does run, it uses exactly
`calculateOptimalK n zoom` centroids (k-means++ seeding produces k of them
and every Lloyd iteration preserves the count). -/
theorem optimalK_amended :
    (∀ (n : ℕ) (z : ℤ), 6 ≤ n →
      2 ≤ calculateOptimalK n z ∧ calculateOptimalK n z ≤ n / 3) ∧
    (∀ (n : ℕ) (z : ℤ), n < 6 → calculateOptimalK n z = n / 3) ∧
    (∀ (dist : HotspotLocation → HotspotLocation → ℚ)
        (hotspots : List HotspotWithDistance) (zoomLevel : ℤ),
      2 ≤ calculateOptimalK hotspots.length zoomLevel →
      (kMeansCentroids dist hotspots zoomLevel).length =
        calculateOptimalK hotspots.length zoomLevel) ∧
    (∀ (dist : HotspotLocation → HotspotLocation → ℚ)
        (hotspots : List HotspotWithDistance) (config : ClusterConfig) (zoomLevel : ℤ),
      hotspots.length < 6 → kMeansClustering dist hotspots config zoomLevel = []) := by
  have hsmall : ∀ (n : ℕ) (z : ℤ), n < 6 → calculateOptimalK n z = n / 3 := by
    intro n z hn
    simp only [calculateOptimalK]
    split_ifs <;> omega
  refine ⟨?_, hsmall, ?_, ?_⟩
  · intro n z hn
    simp only [calculateOptimalK]
    split_ifs <;> omega
  · intro dist hotspots zoomLevel hk
    unfold kMeansCentroids
    rw [lloydIterate_length, initializeCentroids_length]
    omega
  · intro dist hotspots config zoomLevel hn
    have hk : calculateOptimalK hotspots.length zoomLevel ≤ 1 := by
      rw [hsmall hotspots.length zoomLevel hn]
      omega
    unfold kMeansClustering
    rw [if_pos (Or.inl hk)]

/-- C6 witness: the amended bounds at the spec's scenario (n = 150, zoom 12),
the degenerate value at n = 3, the centroid count at a 150-point input, and
the empty k-means output below 6 points. -/
theorem optimalK_amended_witness :
    (6 ≤ 150 ∧ 2 ≤ calculateOptimalK 150 12 ∧ calculateOptimalK 150 12 ≤ 150 / 3) ∧
    ((3 : ℕ) < 6 ∧ calculateOptimalK 3 12 = 3 / 3) ∧
    (kMeansCentroids zeroDist (List.replicate 150 sampleHWD) 12).length =
      calculateOptimalK (List.replicate 150 sampleHWD).length 12 ∧
    ((List.replicate 3 sampleHWD).length < 6 ∧
      kMeansClustering zeroDist (List.replicate 3 sampleHWD) sampleDistanceConfig 12 = []) :=
  ⟨⟨by decide, optimalK_amended.1 150 12 (by decide)⟩,
    ⟨by decide, optimalK_amended.2.1 3 12 (by decide)⟩,
    optimalK_amended.2.2.1 zeroDist (List.replicate 150 sampleHWD) 12
      (by rw [List.length_replicate]; exact (optimalK_amended.1 150 12 (by decide)).1),
    ⟨by decide, optimalK_amended.2.2.2 zeroDist (List.replicate 3 sampleHWD)
      sampleDistanceConfig 12 (by decide)⟩⟩

/-! Pipeline lemmas shared by the search claims. -/

lemma mem_sortByDistance {x : HotspotWithDistance} {l : List HotspotWithDistance} :
    x ∈ sortByDistance l ↔ x ∈ l :=
  List.mem_insertionSort _

lemma sortByDistance_length (l : List HotspotWithDistance) :
    (sortByDistance l).length = l.length :=
  (List.perm_insertionSort _ l).length_eq

lemma sortByDistance_pairwise (l : List HotspotWithDistance) :
    (sortByDistance l).Pairwise (fun a b => a.distance ≤ b.distance) := by
  letI : IsTotal HotspotWithDistance (fun a b => a.distance ≤ b.distance) :=
    ⟨fun a b => le_total a.distance b.distance⟩
  letI : IsTrans HotspotWithDistance (fun a b => a.distance ≤ b.distance) :=
    ⟨fun _ _ _ hab hbc => le_trans hab hbc⟩
  exact List.sorted_insertionSort _ l

lemma paginate_sublist (offset limit : ℕ) (l : List HotspotWithDistance) :
    (paginate offset limit l).Sublist l :=
  (List.drop_sublist _ _).trans (List.take_sublist _ _)

lemma mem_paginate {offset limit : ℕ} {l : List HotspotWithDistance}
    {x : HotspotWithDistance} (hx : x ∈ paginate offset limit l) : x ∈ l :=
  (paginate_sublist offset limit l).mem hx

lemma paginate_eq_drop_take (offset limit : ℕ) (l : List HotspotWithDistance) :
    paginate offset limit l = (l.drop offset).take limit := by
  unfold paginate
  rcases le_or_lt offset l.length with h | h
  · rw [Nat.min_eq_left h, List.drop_take]
    rcases le_or_lt (offset + limit) l.length with h2 | h2
    · rw [Nat.min_eq_left h2]
      congr 1
      omega
    · rw [Nat.min_eq_right (le_of_lt h2)]
      have e1 : (l.drop offset).length ≤ l.length - offset := by
        rw [List.length_drop]
      have e2 : (l.drop offset).length ≤ limit := by
        rw [List.length_drop]; omega
      rw [List.take_of_length_le e1, List.take_of_length_le e2]
  · rw [Nat.min_eq_right (le_of_lt h), Nat.min_eq_right (by omega : l.length ≤ offset + limit)]
    rw [List.take_length, List.drop_length, List.drop_eq_nil_of_le (le_of_lt h)]
    simp

lemma mem_legacyMatchList {dist : HotspotLocation → HotspotLocation → ℚ}
    {store : List Hotspot} {req : HotspotSearchRequest} {x : HotspotWithDistance}
    (hx : x ∈ legacyMatchList dist store req) :
    legacyMatches dist req x.hotspot = true ∧
      x.distance = dist ⟨req.latitude, req.longitude⟩ x.hotspot.location ∧
      x.hotspot ∈ store := by
  unfold legacyMatchList at hx
  rw [mem_sortByDistance] at hx
  obtain ⟨h, hmem, rfl⟩ := List.mem_map.mp hx
  rw [List.mem_filter] at hmem
  exact ⟨hmem.2, rfl, hmem.1⟩

lemma legacyMatches_radius {dist : HotspotLocation → HotspotLocation → ℚ}
    {req : HotspotSearchRequest} {h : Hotspot}
    (hm : legacyMatches dist req h = true) :
    dist ⟨req.latitude, req.longitude⟩ h.location ≤ req.radius := by
  unfold legacyMatches at hm
  simp only [Bool.and_eq_true, decide_eq_true_eq] at hm
  exact not_lt.mp hm.1.1.1.1.1.1

lemma searchHotspotsMock_hotspots (dist : HotspotLocation → HotspotLocation → ℚ)
    (store : List Hotspot) (req : HotspotSearchRequest) :
    (searchHotspotsMock dist store req).hotspots =
      paginate req.offset req.limit (legacyMatchList dist store req) :=
  rfl

lemma mem_searchHotspotsMock {dist : HotspotLocation → HotspotLocation → ℚ}
    {store : List Hotspot} {req : HotspotSearchRequest} {x : HotspotWithDistance}
    (hx : x ∈ (searchHotspotsMock dist store req).hotspots) :
    legacyMatches dist req x.hotspot = true ∧
      x.distance = dist ⟨req.latitude, req.longitude⟩ x.hotspot.location ∧
      x.hotspot ∈ store := by
  rw [searchHotspotsMock_hotspots] at hx
  exact mem_legacyMatchList (mem_paginate hx)

lemma mem_indexedMatches {dist : HotspotLocation → HotspotLocation → ℚ}
    {store : List Hotspot} {candidateIDs : List String}
    {req : OptimizedHotspotSearchRequest} {x : HotspotWithDistance}
    (hx : x ∈ indexedMatches dist store candidateIDs req) :
    x.distance ≤ req.geospatialQuery.radius ∧
      x.distance = dist req.geospatialQuery.center x.hotspot.location ∧
      matchesFilters req.filters x.hotspot = true := by
  unfold indexedMatches at hx
  rw [mem_sortByDistance] at hx
  unfold filterByDistance at hx
  rw [List.mem_filter] at hx
  obtain ⟨hmem, hdec⟩ := hx
  unfold convertToHotspotsWithDistance at hmem
  obtain ⟨h, hmem2, rfl⟩ := List.mem_map.mp hmem
  unfold applyFilters at hmem2
  rw [List.mem_filter] at hmem2
  exact ⟨of_decide_eq_true hdec, rfl, hmem2.2⟩

lemma mem_queryHotspotsOptimized {dist : HotspotLocation → HotspotLocation → ℚ}
    {store : List Hotspot} {available : Bool} {candidateIDs : List String}
    {req : OptimizedHotspotSearchRequest} {x : HotspotWithDistance}
    (hx : x ∈ queryHotspotsOptimized dist store available candidateIDs req) :
    dist req.geospatialQuery.center x.hotspot.location ≤ req.geospatialQuery.radius := by
  simp only [queryHotspotsOptimized] at hx
  split at hx <;> split at hx
  · exact legacyMatches_radius (mem_searchHotspotsMock hx).1
  · obtain ⟨hle, heq, _⟩ := mem_indexedMatches (mem_paginate hx)
    rw [heq] at hle
    exact hle
  · exact legacyMatches_radius (mem_searchHotspotsMock hx).1
  · obtain ⟨hle, heq, _⟩ := mem_indexedMatches (mem_paginate hx)
    rw [heq] at hle
    exact hle

/-- C1: radius containment.  Every individual hotspot returned by the
optimized query (on the indexed path and on the brute-force fallback path
alike), by the brute-force search itself, and by a non-cached optimized
search, lies within the requested radius of the query center.  The statement
is parametric in the distance function, so it holds in particular for the
haversine the Go code uses.  (The candidate resolution behind the indexed
path is the spec-modelled `getHotspotsByIDs`; containment holds for every
store and every candidate reply, so the radius filter guards against any
index imprecision.) -/
theorem search_radius_containment (dist : HotspotLocation → HotspotLocation → ℚ) :
    (∀ (store : List Hotspot) (available : Bool) (candidateIDs : List String)
        (req : OptimizedHotspotSearchRequest) (x : HotspotWithDistance),
      x ∈ queryHotspotsOptimized dist store available candidateIDs req →
      dist req.geospatialQuery.center x.hotspot.location ≤ req.geospatialQuery.radius) ∧
    (∀ (store : List Hotspot) (req : HotspotSearchRequest) (x : HotspotWithDistance),
      x ∈ (searchHotspotsMock dist store req).hotspots →
      dist ⟨req.latitude, req.longitude⟩ x.hotspot.location ≤ req.radius) ∧
    (∀ (store : List Hotspot) (ids : List String) (req : OptimizedHotspotSearchRequest)
        (available : Bool) (x : HotspotWithDistance),
      x ∈ (searchHotspotsOptimized dist store
        ⟨available, Option.none, Option.none, ids⟩ req).hotspots →
      dist req.geospatialQuery.center x.hotspot.location ≤ req.geospatialQuery.radius) := by
  refine ⟨?_, ?_, ?_⟩
  · intro store available candidateIDs req x hx
    exact mem_queryHotspotsOptimized hx
  · intro store req x hx
    obtain ⟨hm, _, _⟩ := mem_searchHotspotsMock hx
    exact legacyMatches_radius hm
  · intro store ids req available x hx
    unfold searchHotspotsOptimized at hx
    simp only [Option.isSome_none, Bool.false_eq_true, and_false, if_false] at hx
    by_cases hcl : req.clustering.mode ≠ clusteringModeNone ∧
        req.clustering.minClusterSize <
          ((queryHotspotsOptimized dist store available ids req).length : ℤ)
    · rw [if_pos hcl] at hx
      exact absurd hx (List.not_mem_nil x)
    · rw [if_neg hcl] at hx
      exact mem_queryHotspotsOptimized hx

/-- C1 witness: a store holding one hotspot at the query center; the indexed
path returns it, and it lies within the radius. -/
theorem search_radius_containment_witness :
    sampleHWD ∈ queryHotspotsOptimized zeroDist [sampleHotspot] true ["h1"] sampleRequest ∧
      zeroDist sampleRequest.geospatialQuery.center sampleHWD.hotspot.location ≤
        sampleRequest.geospatialQuery.radius :=
  ⟨by decide, (search_radius_containment zeroDist).1 [sampleHotspot] true ["h1"]
    sampleRequest sampleHWD (by decide)⟩

/-- C2 counterexample: a non-cached optimized search over a query matching
exactly T = 1 hotspot, with offset 0 and limit 1, answers HasMore = true even
though offset + limit < T is false — `SearchHotspotsOptimized` computes
`HasMore: len(hotspots) >= req.Pagination.Limit` over the already-paginated
page (geospatial.go 131), not `(offset+limit) < totalMatches`. -/
theorem optimized_hasMore_counterexample :
    (indexedMatches zeroDist [sampleHotspot] ["h1"] sampleRequest).length = 1 ∧
    (searchHotspotsOptimized zeroDist [sampleHotspot]
      ⟨true, Option.none, Option.none, ["h1"]⟩ sampleRequest).hasMore = true ∧
    ¬ sampleRequest.pagination.offset + sampleRequest.pagination.limit <
        (indexedMatches zeroDist [sampleHotspot] ["h1"] sampleRequest).length := by
  refine ⟨by decide, by decide, ?_⟩
  intro hlt
  rw [show (indexedMatches zeroDist [sampleHotspot] ["h1"] sampleRequest).length = 1
    from by decide] at hlt
  exact absurd hlt (by decide)

/-- C2 amended: for every non-cached optimized search, the returned page is
the distance-sorted match list sliced at [offset, offset+limit) clamped to
the available length (this part of the claim holds), but the response's
HasMore flag is true exactly when the returned page is full, i.e. its length
reaches the limit — not when offset + limit < totalMatches.  The legacy
search response (hotspot.go 430) is the one whose hasMore equals
offset + limit < totalMatches. -/
theorem optimized_pagination_amended (dist : HotspotLocation → HotspotLocation → ℚ) :
    (∀ (store : List Hotspot) (ids : List String) (req : OptimizedHotspotSearchRequest),
      ids.isEmpty = false → req.clustering.mode = clusteringModeNone →
      (searchHotspotsOptimized dist store ⟨true, Option.none, Option.none, ids⟩ req).hotspots
        = ((indexedMatches dist store ids req).drop req.pagination.offset).take
            req.pagination.limit ∧
      (searchHotspotsOptimized dist store ⟨true, Option.none, Option.none, ids⟩ req).hasMore
        = decide (req.pagination.limit ≤
            (((indexedMatches dist store ids req).drop req.pagination.offset).take
              req.pagination.limit).length)) ∧
    (∀ (store : List Hotspot) (req : HotspotSearchRequest),
      (searchHotspotsMock dist store req).hasMore
        = decide (req.offset + req.limit < (legacyMatchList dist store req).length)) := by
  constructor
  · intro store ids req hids hmode
    have hquery : queryHotspotsOptimized dist store true ids req
        = ((indexedMatches dist store ids req).drop req.pagination.offset).take
            req.pagination.limit := by
      simp only [queryHotspotsOptimized, hids, Bool.false_eq_true, if_false, if_true]
      exact paginate_eq_drop_take _ _ _
    have hnotclustered : ¬ (req.clustering.mode ≠ clusteringModeNone ∧
        req.clustering.minClusterSize <
          ((queryHotspotsOptimized dist store true ids req).length : ℤ)) := by
      intro hc
      exact hc.1 hmode
    constructor
    · simp only [searchHotspotsOptimized]
      rw [if_neg (fun hc => hc.2.1 hmode), if_neg (by simp)]
      simp only [if_neg hnotclustered]
      exact hquery
    · simp only [searchHotspotsOptimized]
      rw [if_neg (fun hc => hc.2.1 hmode), if_neg (by simp)]
      simp only []
      rw [hquery]
  · intro store req
    simp only [searchHotspotsMock]
    apply decide_eq_decide.mpr
    omega

/-- C2 witness: the amended pagination behaviour at the concrete one-hotspot
search of the counterexample, plus the legacy hasMore at the corresponding
legacy request. -/
theorem optimized_pagination_amended_witness :
    (["h1"].isEmpty = false) ∧ (sampleRequest.clustering.mode = clusteringModeNone) ∧
    ((searchHotspotsOptimized zeroDist [sampleHotspot]
        ⟨true, Option.none, Option.none, ["h1"]⟩ sampleRequest).hotspots
      = ((indexedMatches zeroDist [sampleHotspot] ["h1"] sampleRequest).drop
          sampleRequest.pagination.offset).take sampleRequest.pagination.limit ∧
     (searchHotspotsOptimized zeroDist [sampleHotspot]
        ⟨true, Option.none, Option.none, ["h1"]⟩ sampleRequest).hasMore
      = decide (sampleRequest.pagination.limit ≤
          (((indexedMatches zeroDist [sampleHotspot] ["h1"] sampleRequest).drop
            sampleRequest.pagination.offset).take sampleRequest.pagination.limit).length)) :=
  ⟨rfl, rfl, (optimized_pagination_amended zeroDist).1 [sampleHotspot] ["h1"]
    sampleRequest rfl rfl⟩

/-- C3: cache-unavailable degradation.  When the backend is unavailable,
every cache-tier operation returns without error as a no-op or a miss
(whatever the backend would have answered), and every optimized search
reports cacheHit = false and — for an unclustered request — returns exactly
the brute-force fallback page: distance-sorted, and with every result inside
the requested radius.  (The fallback store scan is the spec-modelled
brute-force search; no error is propagated anywhere on this path.) -/
theorem cache_unavailable_degradation (dist : HotspotLocation → HotspotLocation → ℚ) :
    (∀ b, rsCacheHotspots false b = Except.ok ()) ∧
    (∀ b, rsGetCachedHotspots false b = Except.ok Option.none) ∧
    (∀ b, rsCacheClusterResults false b = Except.ok ()) ∧
    (∀ b, rsGetCachedClusterResults false b = Except.ok Option.none) ∧
    (∀ b, rsAddHotspotToGeoIndex false b = Except.ok ()) ∧
    (∀ b, rsRemoveHotspotFromGeoIndex false b = Except.ok ()) ∧
    (∀ b, rsGetNearbyHotspotIDs false b = Except.ok []) ∧
    (∀ b, rsInvalidateRegionCache false b = Except.ok ()) ∧
    (rsInvalidateHotspotCache false = Except.ok ()) ∧
    (∀ b, rsGetCacheStats false b = Except.ok { available := false }) ∧
    (∀ (store : List Hotspot) (cc : Option (List HotspotCluster))
        (ch : Option (List Hotspot)) (ids : List String)
        (req : OptimizedHotspotSearchRequest),
      (searchHotspotsOptimized dist store ⟨false, cc, ch, ids⟩ req).cacheHit = false) ∧
    (∀ (store : List Hotspot) (cc : Option (List HotspotCluster))
        (ch : Option (List Hotspot)) (ids : List String)
        (req : OptimizedHotspotSearchRequest),
      req.clustering.mode = clusteringModeNone →
      (searchHotspotsOptimized dist store ⟨false, cc, ch, ids⟩ req).hotspots
          = (searchHotspotsMock dist store (legacyRequestOf req)).hotspots ∧
        (searchHotspotsOptimized dist store ⟨false, cc, ch, ids⟩ req).hotspots.Pairwise
          (fun a b => a.distance ≤ b.distance) ∧
        ∀ x ∈ (searchHotspotsOptimized dist store ⟨false, cc, ch, ids⟩ req).hotspots,
          dist req.geospatialQuery.center x.hotspot.location ≤ req.geospatialQuery.radius) := by
  refine ⟨fun b => rfl, fun b => rfl, fun b => rfl, fun b => rfl, fun b => rfl, fun b => rfl,
    fun b => rfl, fun b => rfl, rfl, fun b => rfl, ?_, ?_⟩
  · intro store cc ch ids req
    simp only [searchHotspotsOptimized]
    rw [if_neg (by simp), if_neg (by simp)]
  · intro store cc ch ids req hmode
    have hq : queryHotspotsOptimized dist store false ids req
        = (searchHotspotsMock dist store (legacyRequestOf req)).hotspots := rfl
    have hr : (searchHotspotsOptimized dist store ⟨false, cc, ch, ids⟩ req).hotspots
        = (searchHotspotsMock dist store (legacyRequestOf req)).hotspots := by
      simp only [searchHotspotsOptimized]
      rw [if_neg (by simp), if_neg (by simp)]
      simp only []
      rw [if_neg (fun hc => hc.1 hmode)]
      exact hq
    refine ⟨hr, ?_, ?_⟩
    · rw [hr, searchHotspotsMock_hotspots]
      exact List.Pairwise.sublist (paginate_sublist _ _ _) (sortByDistance_pairwise _)
    · intro x hx
      rw [hr] at hx
      exact legacyMatches_radius (mem_searchHotspotsMock hx).1

/-- C3 witness: the unclustered degradation conjunct at a concrete store and
request with the cache down. -/
theorem cache_unavailable_degradation_witness :
    sampleRequest.clustering.mode = clusteringModeNone ∧
    ((searchHotspotsOptimized zeroDist [sampleHotspot]
        ⟨false, Option.none, Option.none, []⟩ sampleRequest).hotspots
        = (searchHotspotsMock zeroDist [sampleHotspot] (legacyRequestOf sampleRequest)).hotspots ∧
      (searchHotspotsOptimized zeroDist [sampleHotspot]
        ⟨false, Option.none, Option.none, []⟩ sampleRequest).hotspots.Pairwise
        (fun a b => a.distance ≤ b.distance) ∧
      ∀ x ∈ (searchHotspotsOptimized zeroDist [sampleHotspot]
        ⟨false, Option.none, Option.none, []⟩ sampleRequest).hotspots,
        zeroDist sampleRequest.geospatialQuery.center x.hotspot.location ≤
          sampleRequest.geospatialQuery.radius) :=
  ⟨rfl, (cache_unavailable_degradation zeroDist).2.2.2.2.2.2.2.2.2.2.2
    [sampleHotspot] Option.none Option.none [] sampleRequest rfl⟩

/-- C9: on a cluster-cache hit (cache available, clustering requested, cached
clusters present), the optimized search returns the cached clusters verbatim,
an empty individual-hotspot list, TotalCount and ClusterCount both equal to
the number of cached clusters, HasMore = false and CacheHit = true — the
result does not depend on the request's filters or pagination at all (they
are quantified here and absent from the right-hand side). -/
theorem cluster_cache_hit_verbatim (dist : HotspotLocation → HotspotLocation → ℚ) :
    ∀ (store : List Hotspot) (cs : List HotspotCluster) (ch : Option (List Hotspot))
      (ids : List String) (req : OptimizedHotspotSearchRequest),
      req.clustering.mode ≠ clusteringModeNone →
      searchHotspotsOptimized dist store ⟨true, Option.some cs, ch, ids⟩ req =
        { clusters := cs
          hotspots := []
          totalCount := cs.length
          clusterCount := cs.length
          hasMore := false
          cacheHit := true
          zoomLevel := req.geospatialQuery.zoomLevel } := by
  intro store cs ch ids req hmode
  simp only [searchHotspotsOptimized]
  rw [if_pos ⟨trivial, hmode, rfl⟩]
  simp

/-- C9 witness: a concrete cluster-cache hit, returned verbatim. -/
theorem cluster_cache_hit_verbatim_witness :
    sampleRequestGrid.clustering.mode ≠ clusteringModeNone ∧
    searchHotspotsOptimized zeroDist [sampleHotspot]
        ⟨true, Option.some [emptyCluster], Option.none, []⟩ sampleRequestGrid =
      { clusters := [emptyCluster]
        hotspots := []
        totalCount := [emptyCluster].length
        clusterCount := [emptyCluster].length
        hasMore := false
        cacheHit := true
        zoomLevel := sampleRequestGrid.geospatialQuery.zoomLevel } :=
  ⟨by decide, cluster_cache_hit_verbatim zeroDist [sampleHotspot] [emptyCluster]
    Option.none [] sampleRequestGrid (by decide)⟩

/-! Clustering lemmas shared by C4 and C5. -/

lemma createClusterFromHotspots_hotspotCount (dist : HotspotLocation → HotspotLocation → ℚ)
    (hs : List HotspotWithDistance) (clusterID : String) (zoomLevel : ℤ) :
    (createClusterFromHotspots dist hs clusterID zoomLevel).hotspotCount = hs.length := by
  cases hs with
  | nil => rfl
  | cons a t => rfl

lemma createClusterFromHotspots_hotspots (dist : HotspotLocation → HotspotLocation → ℚ)
    (hs : List HotspotWithDistance) (clusterID : String) (zoomLevel : ℤ) :
    (createClusterFromHotspots dist hs clusterID zoomLevel).hotspots =
      hs.map (fun h => h.hotspot.id) := by
  cases hs with
  | nil => rfl
  | cons a t => rfl

lemma snd_mem_of_mem_enum {α : Type} {l : List α} {p : ℕ × α} (hp : p ∈ l.enum) :
    p.2 ∈ l := by
  obtain ⟨i, x⟩ := p
  obtain ⟨hlt, heq⟩ := List.mem_enum hp
  show x ∈ l
  rw [heq]
  exact List.getElem_mem hlt

lemma gridBasedClustering_minsize (dist : HotspotLocation → HotspotLocation → ℚ)
    (hotspots : List HotspotWithDistance) (config : ClusterConfig) (zoomLevel : ℤ) :
    ∀ c ∈ gridBasedClustering dist hotspots config zoomLevel,
      config.minClusterSize ≤ c.hotspotCount := by
  intro c hc
  simp only [gridBasedClustering] at hc
  obtain ⟨p, hp, rfl⟩ := List.mem_map.mp hc
  have h2 := snd_mem_of_mem_enum hp
  rw [List.mem_filter] at h2
  rw [createClusterFromHotspots_hotspotCount]
  exact of_decide_eq_true h2.2

lemma outerLoop_minsize (dist : HotspotLocation → HotspotLocation → ℚ)
    (maxDistance : ℚ) (maxClusterSize minClusterSize : ℤ)
    (all : List (ℕ × HotspotWithDistance)) :
    ∀ (rem : List (ℕ × HotspotWithDistance)) (used : List ℕ)
      (g : List (ℕ × HotspotWithDistance)),
      g ∈ outerLoop dist maxDistance maxClusterSize minClusterSize all rem used →
      minClusterSize ≤ (g.length : ℤ) := by
  intro rem
  induction rem with
  | nil => intro used g hg; exact absurd hg (List.not_mem_nil g)
  | cons p rest ih =>
    intro used g hg
    obtain ⟨i, hi⟩ := p
    unfold outerLoop at hg
    split at hg
    · exact ih used g hg
    · dsimp only [] at hg
      split at hg
      · rcases List.mem_cons.mp hg with h | h
        · subst h; assumption
        · exact ih _ g h
      · exact ih _ g hg

lemma distanceBasedClustering_minsize (dist : HotspotLocation → HotspotLocation → ℚ)
    (hotspots : List HotspotWithDistance) (config : ClusterConfig) (zoomLevel : ℤ) :
    ∀ c ∈ distanceBasedClustering dist hotspots config zoomLevel,
      config.minClusterSize ≤ c.hotspotCount := by
  intro c hc
  simp only [distanceBasedClustering] at hc
  obtain ⟨p, hp, rfl⟩ := List.mem_map.mp hc
  have h2 := snd_mem_of_mem_enum hp
  rw [createClusterFromHotspots_hotspotCount]
  have := outerLoop_minsize dist (calculateOptimalClusterDistance zoomLevel)
    config.maxClusterSize config.minClusterSize hotspots.enum hotspots.enum [] p.2 h2
  simpa using this

lemma kMeansClustering_minsize (dist : HotspotLocation → HotspotLocation → ℚ)
    (hotspots : List HotspotWithDistance) (config : ClusterConfig) (zoomLevel : ℤ) :
    ∀ c ∈ kMeansClustering dist hotspots config zoomLevel,
      config.minClusterSize ≤ c.hotspotCount := by
  intro c hc
  simp only [kMeansClustering] at hc
  split at hc
  · exact absurd hc (List.not_mem_nil c)
  · obtain ⟨p, hp, rfl⟩ := List.mem_map.mp hc
    rw [List.mem_filter] at hp
    rw [createClusterFromHotspots_hotspotCount]
    exact of_decide_eq_true hp.2

lemma autoClustering_minsize (dist : HotspotLocation → HotspotLocation → ℚ)
    (hotspots : List HotspotWithDistance) (config : ClusterConfig) (zoomLevel : ℤ) :
    ∀ c ∈ autoClustering dist hotspots config zoomLevel,
      config.minClusterSize ≤ c.hotspotCount := by
  intro c hc
  simp only [autoClustering] at hc
  split at hc
  · exact distanceBasedClustering_minsize dist hotspots _ zoomLevel c hc
  · split at hc
    · exact gridBasedClustering_minsize dist hotspots _ zoomLevel c hc
    · exact kMeansClustering_minsize dist hotspots _ zoomLevel c hc

lemma clusterHotspots_minsize (dist : HotspotLocation → HotspotLocation → ℚ)
    (hotspots : List HotspotWithDistance) (config : ClusterConfig) (zoomLevel : ℤ) :
    ∀ c ∈ clusterHotspots dist hotspots config zoomLevel,
      config.minClusterSize ≤ c.hotspotCount := by
  intro c hc
  simp only [clusterHotspots] at hc
  split at hc
  · exact gridBasedClustering_minsize dist hotspots config zoomLevel c hc
  · split at hc
    · exact distanceBasedClustering_minsize dist hotspots config zoomLevel c hc
    · split at hc
      · exact kMeansClustering_minsize dist hotspots config zoomLevel c hc
      · split at hc
        · exact autoClustering_minsize dist hotspots config zoomLevel c hc
        · exact absurd hc (List.not_mem_nil c)

/-- C5: minimum cluster size enforced.  For every input, every clustering
mode (grid, distance, k-means, auto, and the empty default), and every
configuration, every emitted cluster has HotspotCount at least the
configured MinClusterSize. -/
theorem min_cluster_size_enforced (dist : HotspotLocation → HotspotLocation → ℚ) :
    ∀ (hotspots : List HotspotWithDistance) (config : ClusterConfig) (zoomLevel : ℤ)
      (i : ℕ) (hi : i < (clusterHotspots dist hotspots config zoomLevel).length),
      config.minClusterSize ≤
        ((clusterHotspots dist hotspots config zoomLevel)[i]).hotspotCount :=
  fun hotspots config zoomLevel _i hi =>
    clusterHotspots_minsize dist hotspots config zoomLevel _ (List.getElem_mem hi)

/-- C5 witness: distance-mode clustering of two co-located hotspots with
MinClusterSize 2 emits one cluster of size 2. -/
theorem min_cluster_size_enforced_witness :
    sampleDistanceConfig.minClusterSize ≤
      ((clusterHotspots zeroDist [sampleHWD, sampleHWD2] sampleDistanceConfig 10).get
        ⟨0, by decide⟩).hotspotCount :=
  min_cluster_size_enforced zeroDist [sampleHWD, sampleHWD2] sampleDistanceConfig 10 0 (by decide)

/-! Occupancy-invariant lemmas (C8). -/

lemma mem_updateHotspotMock {store : List Hotspot} {h x : Hotspot}
    (hx : x ∈ updateHotspotMock store h) : x = h ∨ x ∈ store := by
  unfold updateHotspotMock at hx
  split at hx
  · obtain ⟨y, hy, heq⟩ := List.mem_map.mp hx
    by_cases hid : (y.id == h.id) = true
    · rw [if_pos hid] at heq
      exact Or.inl heq.symm
    · rw [if_neg hid] at heq
      exact Or.inr (heq ▸ hy)
  · rcases List.mem_append.mp hx with h1 | h1
    · exact Or.inr h1
    · exact Or.inl (List.mem_singleton.mp h1)

lemma createHotspot_inv {users : List User} {userID : String} {req : CreateHotspotRequest}
    {hotspotID : String} {now : ℤ} {h : Hotspot}
    (hc : createHotspot users userID req hotspotID now = Except.ok h) :
    occupancyInvariant h := by
  unfold createHotspot at hc
  split at hc
  · exact absurd hc (by simp)
  · split at hc
    · exact absurd hc (by simp)
    · cases hc
      rfl

lemma joinHotspot_ok {store : List Hotspot} {userID hotspotID : String} {now : ℤ}
    {r : Hotspot × List Hotspot}
    (hj : joinHotspot store userID hotspotID now = Except.ok r) :
    occupancyInvariant r.1 ∧ r.2 = updateHotspotMock store r.1 := by
  unfold joinHotspot at hj
  split at hj
  · exact absurd hj (by simp)
  · split at hj
    · exact absurd hj (by simp)
    · split at hj
      · exact absurd hj (by simp)
      · split at hj
        · exact absurd hj (by simp)
        · cases hj
          exact ⟨rfl, rfl⟩

lemma leaveHotspot_ok {users : List User} {store : List Hotspot}
    {userID hotspotID : String} {now : ℤ} {r : Hotspot × List Hotspot}
    (hl : leaveHotspot users store userID hotspotID now = Except.ok r) :
    occupancyInvariant r.1 ∧ r.2 = updateHotspotMock store r.1 := by
  unfold leaveHotspot at hl
  split at hl
  · exact absurd hl (by simp)
  · split at hl
    · exact absurd hl (by simp)
    · cases hl
      refine ⟨?_, rfl⟩
      unfold occupancyInvariant
      dsimp only
      repeat' split
      all_goals rfl

lemma applyOp_inv (users : List User) (store : List Hotspot) (op : HotspotOp)
    (hstore : ∀ x ∈ store, occupancyInvariant x) :
    ∀ x ∈ applyOp users store op, occupancyInvariant x := by
  intro x hx
  cases op with
  | create userID req hotspotID now =>
    dsimp only [applyOp] at hx
    split at hx
    · rcases mem_updateHotspotMock hx with rfl | hmem
      · exact createHotspot_inv (by assumption)
      · exact hstore x hmem
    · exact hstore x hx
  | join userID hotspotID now =>
    dsimp only [applyOp] at hx
    split at hx
    · obtain ⟨hinv, hupd⟩ := joinHotspot_ok (by assumption)
      rw [hupd] at hx
      rcases mem_updateHotspotMock hx with rfl | hmem
      · exact hinv
      · exact hstore x hmem
    · exact hstore x hx
  | leave userID hotspotID now =>
    dsimp only [applyOp] at hx
    split at hx
    · obtain ⟨hinv, hupd⟩ := leaveHotspot_ok (by assumption)
      rw [hupd] at hx
      rcases mem_updateHotspotMock hx with rfl | hmem
      · exact hinv
      · exact hstore x hmem
    · exact hstore x hx

/-- C8: occupancy invariant.  Every hotspot in a store produced from the
empty store by any sequence of CreateHotspot / JoinHotspot / LeaveHotspot
operations satisfies CurrentOccupancy = len(Attendees): creation establishes
it with the owner auto-joined, and every successful join and leave
re-establishes it (failed operations leave the store unchanged). -/
theorem occupancy_invariant_preserved :
    ∀ (users : List User) (ops : List HotspotOp) (h : Hotspot),
      h ∈ runOps users [] ops → occupancyInvariant h := by
  have main : ∀ (users : List User) (ops : List HotspotOp) (store : List Hotspot),
      (∀ x ∈ store, occupancyInvariant x) →
      ∀ h ∈ runOps users store ops, occupancyInvariant h := by
    intro users ops
    induction ops with
    | nil => intro store hstore h hh; exact hstore h hh
    | cons op rest ih =>
      intro store hstore h hh
      exact ih _ (applyOp_inv users store op hstore) h hh
  intro users ops h hh
  exact main users ops [] (fun x hx => absurd hx (List.not_mem_nil x)) h hh

/-- C8 witness: creating a hotspot puts a hotspot with occupancy 1 and a
single attendee (the owner) in the store, and the invariant holds for it. -/
theorem occupancy_invariant_preserved_witness :
    sampleHotspot ∈
        runOps [sampleUser] [] [HotspotOp.create "u1" sampleCreateRequest "h1" 0] ∧
      occupancyInvariant sampleHotspot :=
  ⟨by decide, occupancy_invariant_preserved [sampleUser]
    [HotspotOp.create "u1" sampleCreateRequest "h1" 0] sampleHotspot (by decide)⟩

/-! Membership-conservation lemmas (C4), grid mode. -/

lemma pairwise_enum_of_pairwise {α : Type} {R : α → α → Prop} {l : List α}
    (h : l.Pairwise R) : l.enum.Pairwise (fun p q => R p.2 q.2) := by
  have h2 : List.Pairwise R (l.enum.map Prod.snd) := by
    rw [List.enum_map_snd]
    exact h
  exact List.pairwise_map.mp h2

lemma mem_gridCells_subset {hotspots : List HotspotWithDistance} {gridSize : ℚ}
    {cell : List HotspotWithDistance} (hc : cell ∈ gridCells hotspots gridSize) :
    ∀ x ∈ cell, x ∈ hotspots := by
  intro x hx
  simp only [gridCells] at hc
  obtain ⟨k, _hk, rfl⟩ := List.mem_map.mp hc
  exact (List.mem_filter.mp hx).1

lemma gridCells_pairwise {hotspots : List HotspotWithDistance} {gridSize : ℚ}
    (hnd : (hotspots.map (fun h => h.hotspot.id)).Nodup) :
    (gridCells hotspots gridSize).Pairwise
      (fun c₁ c₂ => ∀ s ∈ c₁.map (fun h => h.hotspot.id),
        s ∉ c₂.map (fun h => h.hotspot.id)) := by
  unfold gridCells
  rw [List.pairwise_map]
  apply List.Pairwise.imp ?_
    ((List.nodup_dedup (hotspots.map (fun h => getGridKey h.hotspot.location gridSize))).imp
      (fun hne => hne))
  intro k₁ k₂ hne s hs₁ hs₂
  obtain ⟨h₁, hm₁, hid₁⟩ := List.mem_map.mp hs₁
  obtain ⟨h₂, hm₂, hid₂⟩ := List.mem_map.mp hs₂
  rw [List.mem_filter] at hm₁ hm₂
  have heq : h₁ = h₂ := by
    apply List.inj_on_of_nodup_map hnd hm₁.1 hm₂.1
    rw [hid₁, hid₂]
  apply hne
  rw [← of_decide_eq_true hm₁.2, ← of_decide_eq_true hm₂.2, heq]

lemma gridBasedClustering_conservation (dist : HotspotLocation → HotspotLocation → ℚ)
    (hotspots : List HotspotWithDistance) (config : ClusterConfig) (zoomLevel : ℤ)
    (hnd : (hotspots.map (fun h => h.hotspot.id)).Nodup) :
    (∀ c ∈ gridBasedClustering dist hotspots config zoomLevel,
      ∀ s ∈ c.hotspots, s ∈ hotspots.map (fun h => h.hotspot.id)) ∧
    (gridBasedClustering dist hotspots config zoomLevel).Pairwise
      (fun c₁ c₂ => ∀ s ∈ c₁.hotspots, s ∉ c₂.hotspots) := by
  constructor
  · intro c hc s hs
    simp only [gridBasedClustering] at hc
    obtain ⟨p, hp, rfl⟩ := List.mem_map.mp hc
    rw [createClusterFromHotspots_hotspots] at hs
    obtain ⟨x, hx, rfl⟩ := List.mem_map.mp hs
    have hcell := snd_mem_of_mem_enum hp
    rw [List.mem_filter] at hcell
    exact List.mem_map_of_mem _ (mem_gridCells_subset hcell.1 x hx)
  · simp only [gridBasedClustering]
    rw [List.pairwise_map]
    have base := (@gridCells_pairwise hotspots
      (calculateOptimalGridSize zoomLevel config.gridSize) hnd).filter
      (fun cell => decide (config.minClusterSize ≤ (cell.length : ℤ)))
    have base2 := pairwise_enum_of_pairwise base
    apply base2.imp
    intro p q hpq s hs₁ hs₂
    rw [createClusterFromHotspots_hotspots] at hs₁ hs₂
    exact hpq s hs₁ hs₂

/-! Membership-conservation lemmas (C4), distance mode. -/

lemma absorbLoop_used_mono (dist : HotspotLocation → HotspotLocation → ℚ)
    (maxDistance : ℚ) (maxClusterSize : ℤ) (i : ℕ) (hi : HotspotWithDistance) :
    ∀ (l : List (ℕ × HotspotWithDistance)) (used : List ℕ)
      (cluster : List (ℕ × HotspotWithDistance)),
      used ⊆ (absorbLoop dist maxDistance maxClusterSize i hi l used cluster).2 := by
  intro l
  induction l with
  | nil => intro used cluster; exact fun a ha => ha
  | cons p rest ih =>
    intro used cluster
    obtain ⟨j, hj⟩ := p
    unfold absorbLoop
    split
    · exact ih used cluster
    · split
      · exact fun a ha => ih (j :: used) _ (List.mem_cons_of_mem j ha)
      · exact ih used cluster

lemma absorbLoop_cluster_mem (dist : HotspotLocation → HotspotLocation → ℚ)
    (maxDistance : ℚ) (maxClusterSize : ℤ) (i : ℕ) (hi : HotspotWithDistance) :
    ∀ (l : List (ℕ × HotspotWithDistance)) (used : List ℕ)
      (cluster : List (ℕ × HotspotWithDistance)) (p : ℕ × HotspotWithDistance),
      p ∈ (absorbLoop dist maxDistance maxClusterSize i hi l used cluster).1 →
      p ∈ cluster ∨ (p ∈ l ∧ p.1 ∉ used) := by
  intro l
  induction l with
  | nil =>
    intro used cluster p hp
    exact Or.inl hp
  | cons q rest ih =>
    intro used cluster p hp
    obtain ⟨j, hj⟩ := q
    unfold absorbLoop at hp
    split at hp
    · rcases ih used cluster p hp with h | ⟨h1, h2⟩
      · exact Or.inl h
      · exact Or.inr ⟨List.mem_cons_of_mem _ h1, h2⟩
    · rename_i hguard
      split at hp
      · rcases ih (j :: used) (cluster ++ [(j, hj)]) p hp with h | ⟨h1, h2⟩
        · rcases List.mem_append.mp h with h3 | h3
          · exact Or.inl h3
          · have hpj : p = (j, hj) := List.mem_singleton.mp h3
            refine Or.inr ⟨hpj ▸ List.mem_cons_self _ _, ?_⟩
            rw [hpj]
            exact fun hmem => hguard (Or.inl hmem)
        · exact Or.inr ⟨List.mem_cons_of_mem _ h1,
            fun hmem => h2 (List.mem_cons_of_mem j hmem)⟩
      · rcases ih used cluster p hp with h | ⟨h1, h2⟩
        · exact Or.inl h
        · exact Or.inr ⟨List.mem_cons_of_mem _ h1, h2⟩

lemma absorbLoop_cluster_in_used (dist : HotspotLocation → HotspotLocation → ℚ)
    (maxDistance : ℚ) (maxClusterSize : ℤ) (i : ℕ) (hi : HotspotWithDistance) :
    ∀ (l : List (ℕ × HotspotWithDistance)) (used : List ℕ)
      (cluster : List (ℕ × HotspotWithDistance)),
      (∀ p ∈ cluster, p.1 ∈ used) →
      ∀ p ∈ (absorbLoop dist maxDistance maxClusterSize i hi l used cluster).1,
        p.1 ∈ (absorbLoop dist maxDistance maxClusterSize i hi l used cluster).2 := by
  intro l
  induction l with
  | nil =>
    intro used cluster hbase p hp
    exact hbase p hp
  | cons q rest ih =>
    intro used cluster hbase p hp
    obtain ⟨j, hj⟩ := q
    unfold absorbLoop at hp ⊢
    by_cases h1 : j ∈ used ∨ i = j
    · rw [if_pos h1] at hp ⊢
      exact ih used cluster hbase p hp
    · rw [if_neg h1] at hp ⊢
      by_cases h2 : dist hi.hotspot.location hj.hotspot.location ≤ maxDistance ∧
          (cluster.length : ℤ) < maxClusterSize
      · rw [if_pos h2] at hp ⊢
        refine ih (j :: used) (cluster ++ [(j, hj)]) ?_ p hp
        intro r hr
        rcases List.mem_append.mp hr with h3 | h3
        · exact List.mem_cons_of_mem j (hbase r h3)
        · rw [List.mem_singleton.mp h3]
          exact List.mem_cons_self j used
      · rw [if_neg h2] at hp ⊢
        exact ih used cluster hbase p hp

lemma absorbLoop_nodup (dist : HotspotLocation → HotspotLocation → ℚ)
    (maxDistance : ℚ) (maxClusterSize : ℤ) (i : ℕ) (hi : HotspotWithDistance) :
    ∀ (l : List (ℕ × HotspotWithDistance)) (used : List ℕ)
      (cluster : List (ℕ × HotspotWithDistance)),
      (∀ p ∈ cluster, p.1 ∈ used) → (cluster.map Prod.fst).Nodup →
      ((absorbLoop dist maxDistance maxClusterSize i hi l used cluster).1.map
        Prod.fst).Nodup := by
  intro l
  induction l with
  | nil =>
    intro used cluster _hbase hnd
    exact hnd
  | cons q rest ih =>
    intro used cluster hbase hnd
    obtain ⟨j, hj⟩ := q
    unfold absorbLoop
    split
    · exact ih used cluster hbase hnd
    · rename_i hguard
      split
      · refine ih (j :: used) (cluster ++ [(j, hj)]) ?_ ?_
        · intro r hr
          rcases List.mem_append.mp hr with h3 | h3
          · exact List.mem_cons_of_mem j (hbase r h3)
          · rw [List.mem_singleton.mp h3]
            exact List.mem_cons_self j used
        · rw [List.map_append]
          rw [List.nodup_append]
          refine ⟨hnd, List.nodup_singleton j, ?_⟩
          intro a ha hb
          have haj : a = j := by
            simpa using hb
          obtain ⟨r, hr, hrj⟩ := List.mem_map.mp ha
          apply hguard
          apply Or.inl
          rw [← haj, ← hrj]
          exact hbase r hr
      · exact ih used cluster hbase hnd

lemma outerLoop_fresh (dist : HotspotLocation → HotspotLocation → ℚ)
    (maxDistance : ℚ) (maxClusterSize minClusterSize : ℤ)
    (all : List (ℕ × HotspotWithDistance)) :
    ∀ (rem : List (ℕ × HotspotWithDistance)), (∀ p ∈ rem, p ∈ all) →
      ∀ (used : List ℕ) (g : List (ℕ × HotspotWithDistance)),
        g ∈ outerLoop dist maxDistance maxClusterSize minClusterSize all rem used →
        ∀ p ∈ g, p ∈ all ∧ p.1 ∉ used := by
  intro rem
  induction rem with
  | nil =>
    intro _hsub used g hg
    exact absurd hg (List.not_mem_nil g)
  | cons q rest ih =>
    intro hsub used g hg p hp
    obtain ⟨i, hi⟩ := q
    have hsub2 : ∀ r ∈ rest, r ∈ all := fun r hr => hsub r (List.mem_cons_of_mem _ hr)
    unfold outerLoop at hg
    split at hg
    · exact ih hsub2 used g hg p hp
    · rename_i hnotused
      dsimp only [] at hg
      have hmono : (i :: used) ⊆
          (absorbLoop dist maxDistance maxClusterSize i hi all (i :: used) [(i, hi)]).2 :=
        absorbLoop_used_mono dist maxDistance maxClusterSize i hi all (i :: used) [(i, hi)]
      have hfromtail : g ∈ outerLoop dist maxDistance maxClusterSize minClusterSize all rest
          (absorbLoop dist maxDistance maxClusterSize i hi all (i :: used) [(i, hi)]).2 →
          p ∈ all ∧ p.1 ∉ used := by
        intro htail
        obtain ⟨hall, hnotin⟩ := ih hsub2 _ g htail p hp
        exact ⟨hall, fun hmem => hnotin (hmono (List.mem_cons_of_mem i hmem))⟩
      split at hg
      · rcases List.mem_cons.mp hg with rfl | htail
        · rcases absorbLoop_cluster_mem dist maxDistance maxClusterSize i hi all
            (i :: used) [(i, hi)] p hp with hseed | ⟨hall, hnotin⟩
          · rw [List.mem_singleton.mp hseed]
            exact ⟨hsub (i, hi) (List.mem_cons_self _ _), hnotused⟩
          · exact ⟨hall, fun hmem => hnotin (List.mem_cons_of_mem i hmem)⟩
        · exact hfromtail htail
      · exact hfromtail hg

lemma outerLoop_group_nodup (dist : HotspotLocation → HotspotLocation → ℚ)
    (maxDistance : ℚ) (maxClusterSize minClusterSize : ℤ)
    (all : List (ℕ × HotspotWithDistance)) :
    ∀ (rem : List (ℕ × HotspotWithDistance)) (used : List ℕ)
      (g : List (ℕ × HotspotWithDistance)),
      g ∈ outerLoop dist maxDistance maxClusterSize minClusterSize all rem used →
      (g.map Prod.fst).Nodup := by
  intro rem
  induction rem with
  | nil =>
    intro used g hg
    exact absurd hg (List.not_mem_nil g)
  | cons q rest ih =>
    intro used g hg
    obtain ⟨i, hi⟩ := q
    unfold outerLoop at hg
    split at hg
    · exact ih used g hg
    · dsimp only [] at hg
      split at hg
      · rcases List.mem_cons.mp hg with rfl | htail
        · refine absorbLoop_nodup dist maxDistance maxClusterSize i hi all
            (i :: used) [(i, hi)] ?_ ?_
          · intro r hr
            rw [List.mem_singleton.mp hr]
            exact List.mem_cons_self i used
          · exact List.nodup_singleton i
        · exact ih _ g htail
      · exact ih _ g hg

lemma outerLoop_pairwise (dist : HotspotLocation → HotspotLocation → ℚ)
    (maxDistance : ℚ) (maxClusterSize minClusterSize : ℤ)
    (all : List (ℕ × HotspotWithDistance)) :
    ∀ (rem : List (ℕ × HotspotWithDistance)), (∀ p ∈ rem, p ∈ all) →
      ∀ (used : List ℕ),
        (outerLoop dist maxDistance maxClusterSize minClusterSize all rem used).Pairwise
          (fun g₁ g₂ => ∀ p ∈ g₁, ∀ q ∈ g₂, p.1 ≠ q.1) := by
  intro rem
  induction rem with
  | nil =>
    intro _hsub used
    exact List.Pairwise.nil
  | cons q rest ih =>
    intro hsub used
    obtain ⟨i, hi⟩ := q
    have hsub2 : ∀ r ∈ rest, r ∈ all := fun r hr => hsub r (List.mem_cons_of_mem _ hr)
    unfold outerLoop
    split
    · exact ih hsub2 used
    · dsimp only []
      split
      · rw [List.pairwise_cons]
        refine ⟨?_, ih hsub2 _⟩
        intro g hg p hp q hq
        have hq2 := (outerLoop_fresh dist maxDistance maxClusterSize minClusterSize all
          rest hsub2 _ g hg q hq).2
        have hp2 := absorbLoop_cluster_in_used dist maxDistance maxClusterSize i hi all
          (i :: used) [(i, hi)]
          (fun r hr => by rw [List.mem_singleton.mp hr]; exact List.mem_cons_self i used)
          p hp
        intro heq
        exact hq2 (heq ▸ hp2)
      · exact ih hsub2 _

lemma enum_id_ne {hotspots : List HotspotWithDistance}
    (hnd : (hotspots.map (fun h => h.hotspot.id)).Nodup)
    {p q : ℕ × HotspotWithDistance} (hp : p ∈ hotspots.enum) (hq : q ∈ hotspots.enum)
    (hne : p.1 ≠ q.1) : p.2.hotspot.id ≠ q.2.hotspot.id := by
  obtain ⟨i, x⟩ := p
  obtain ⟨j, y⟩ := q
  obtain ⟨hi, hxe⟩ := List.mem_enum hp
  obtain ⟨hj, hye⟩ := List.mem_enum hq
  intro heq
  apply hne
  show i = j
  have hi2 : i < (hotspots.map (fun h => h.hotspot.id)).length := by
    rw [List.length_map]
    exact hi
  have hj2 : j < (hotspots.map (fun h => h.hotspot.id)).length := by
    rw [List.length_map]
    exact hj
  have hgd : (hotspots.map (fun h => h.hotspot.id))[i] =
      (hotspots.map (fun h => h.hotspot.id))[j] := by
    rw [List.getElem_map, List.getElem_map, ← hxe, ← hye]
    exact heq
  exact (List.Nodup.getElem_inj_iff hnd).mp hgd

lemma distanceBasedClustering_conservation (dist : HotspotLocation → HotspotLocation → ℚ)
    (hotspots : List HotspotWithDistance) (config : ClusterConfig) (zoomLevel : ℤ)
    (hnd : (hotspots.map (fun h => h.hotspot.id)).Nodup) :
    (∀ c ∈ distanceBasedClustering dist hotspots config zoomLevel,
      ∀ s ∈ c.hotspots, s ∈ hotspots.map (fun h => h.hotspot.id)) ∧
    (distanceBasedClustering dist hotspots config zoomLevel).Pairwise
      (fun c₁ c₂ => ∀ s ∈ c₁.hotspots, s ∉ c₂.hotspots) := by
  have hfresh := outerLoop_fresh dist (calculateOptimalClusterDistance zoomLevel)
    config.maxClusterSize config.minClusterSize hotspots.enum hotspots.enum
    (fun p hp => hp) []
  constructor
  · intro c hc s hs
    simp only [distanceBasedClustering] at hc
    obtain ⟨p, hp, rfl⟩ := List.mem_map.mp hc
    rw [createClusterFromHotspots_hotspots, List.map_map] at hs
    obtain ⟨r, hr, rfl⟩ := List.mem_map.mp hs
    have hg := snd_mem_of_mem_enum hp
    have hall := (hfresh p.2 hg r hr).1
    exact List.mem_map_of_mem _ (snd_mem_of_mem_enum hall)
  · simp only [distanceBasedClustering]
    rw [List.pairwise_map]
    have base := outerLoop_pairwise dist (calculateOptimalClusterDistance zoomLevel)
      config.maxClusterSize config.minClusterSize hotspots.enum hotspots.enum
      (fun p hp => hp) []
    have base2 : (distanceGroups dist (calculateOptimalClusterDistance zoomLevel)
        config.maxClusterSize config.minClusterSize hotspots).Pairwise
        (fun g₁ g₂ => ∀ p ∈ g₁, ∀ q ∈ g₂, p.2.hotspot.id ≠ q.2.hotspot.id) := by
      refine List.Pairwise.imp_of_mem ?_ base
      intro g₁ g₂ hg₁ hg₂ hR p hp q hq
      exact enum_id_ne hnd (hfresh g₁ hg₁ p hp).1 (hfresh g₂ hg₂ q hq).1 (hR p hp q hq)
    have base3 := pairwise_enum_of_pairwise base2
    apply base3.imp
    intro p q hpq s hs₁ hs₂
    rw [createClusterFromHotspots_hotspots, List.map_map] at hs₁ hs₂
    obtain ⟨r₁, hr₁, rfl⟩ := List.mem_map.mp hs₁
    obtain ⟨r₂, hr₂, hid⟩ := List.mem_map.mp hs₂
    exact hpq r₁ hr₁ r₂ hr₂ hid.symm

/-- C4: clustering membership conservation.  For every input whose hotspot
IDs are pairwise distinct and every configuration, in grid mode and in
distance mode the member-ID set of every emitted cluster is drawn from the
input IDs, and no ID appears in two distinct emitted clusters. -/
theorem clustering_membership_conservation (dist : HotspotLocation → HotspotLocation → ℚ) :
    ∀ (hotspots : List HotspotWithDistance) (config : ClusterConfig) (zoomLevel : ℤ),
      (hotspots.map (fun h => h.hotspot.id)).Nodup →
      ((∀ c ∈ gridBasedClustering dist hotspots config zoomLevel,
          ∀ s ∈ c.hotspots, s ∈ hotspots.map (fun h => h.hotspot.id)) ∧
        (gridBasedClustering dist hotspots config zoomLevel).Pairwise
          (fun c₁ c₂ => ∀ s ∈ c₁.hotspots, s ∉ c₂.hotspots)) ∧
      ((∀ c ∈ distanceBasedClustering dist hotspots config zoomLevel,
          ∀ s ∈ c.hotspots, s ∈ hotspots.map (fun h => h.hotspot.id)) ∧
        (distanceBasedClustering dist hotspots config zoomLevel).Pairwise
          (fun c₁ c₂ => ∀ s ∈ c₁.hotspots, s ∉ c₂.hotspots)) :=
  fun hotspots config zoomLevel hnd =>
    ⟨gridBasedClustering_conservation dist hotspots config zoomLevel hnd,
      distanceBasedClustering_conservation dist hotspots config zoomLevel hnd⟩

/-- C4 witness: conservation at a concrete two-hotspot input with distinct
IDs. -/
theorem clustering_membership_conservation_witness :
    ([sampleHWD, sampleHWD2].map (fun h => h.hotspot.id)).Nodup ∧
    ((∀ c ∈ gridBasedClustering zeroDist [sampleHWD, sampleHWD2] sampleDistanceConfig 10,
        ∀ s ∈ c.hotspots, s ∈ [sampleHWD, sampleHWD2].map (fun h => h.hotspot.id)) ∧
      (gridBasedClustering zeroDist [sampleHWD, sampleHWD2] sampleDistanceConfig 10).Pairwise
        (fun c₁ c₂ => ∀ s ∈ c₁.hotspots, s ∉ c₂.hotspots)) ∧
    ((∀ c ∈ distanceBasedClustering zeroDist [sampleHWD, sampleHWD2] sampleDistanceConfig 10,
        ∀ s ∈ c.hotspots, s ∈ [sampleHWD, sampleHWD2].map (fun h => h.hotspot.id)) ∧
      (distanceBasedClustering zeroDist [sampleHWD, sampleHWD2]
          sampleDistanceConfig 10).Pairwise
        (fun c₁ c₂ => ∀ s ∈ c₁.hotspots, s ∉ c₂.hotspots)) :=
  ⟨by decide, clustering_membership_conservation zeroDist [sampleHWD, sampleHWD2]
    sampleDistanceConfig 10 (by decide)⟩

end Unalone
